import Mathlib

/-!
# Port de plaisance API: a shallow embedding

The Express application of `server.js`, its two middlewares
(`middlewares/auth.js`, `middlewares/validation.js`) and its routers
(`routes/catwayRoutes.js`, `routes/reservationRoutes.js`,
`routes/userRoutes.js`) are embedded as pure functions over an explicit
store.  A collection is the list of its documents in natural order, so
`findOne` is `List.find?`.  Dates are integer timestamps.
-/

set_option autoImplicit false

namespace PortDePlaisance

/-! ## Data model -/

/-- Modelled from the spec: `models/Reservation.js` is not among the sources; section 3
gives the fields catwayNumber (integer), clientName, boatName (strings), checkIn and
checkOut (dates, here the number of milliseconds since the epoch).  The field `id` is
the `_id` every stored document carries. -/
structure Reservation where
  id : Nat
  catwayNumber : Int
  clientName : String
  boatName : String
  checkIn : Int
  checkOut : Int
deriving DecidableEq

/-- Modelled from the spec: `models/Catway.js` is not among the sources; section 3 gives
catwayNumber (integer, unique), type and catwayState (strings), the three of them
required. -/
structure Catway where
  catwayNumber : Int
  type : String
  catwayState : String
deriving DecidableEq

/-- Modelled from the spec: `models/User.js` is not among the sources; section 3 gives
username (unique), email and the password hash, stored in the field `password`. -/
structure User where
  username : String
  email : String
  password : String
deriving DecidableEq

/-- The three collections.  `nextId` is the `_id` the next saved reservation receives. -/
structure Store where
  users : List User
  catways : List Catway
  reservations : List Reservation
  nextId : Nat
deriving DecidableEq

/-! ## Conflict query of `routes/reservationRoutes.js` -/

/-- The `$or` of the conflict query on one stored reservation `r`, for the request's
`checkIn` and `checkOut`:
`{ checkIn: { $lt: checkOut, $gte: checkIn } }`,
`{ checkOut: { $gt: checkIn, $lte: checkOut } }`,
`{ checkIn: { $lte: checkIn }, checkOut: { $gte: checkOut } }`. -/
def overlapOr (r : Reservation) (checkIn checkOut : Int) : Bool :=
  (decide (r.checkIn < checkOut) && decide (r.checkIn ≥ checkIn))
    || (decide (r.checkOut > checkIn) && decide (r.checkOut ≤ checkOut))
    || (decide (r.checkIn ≤ checkIn) && decide (r.checkOut ≥ checkOut))

/-- The filter of the conflict query of `POST /reservations`:
`{ catwayNumber: req.body.catwayNumber, $or: [...] }`. -/
def conflictFilter (catwayNumber : Int) (checkIn checkOut : Int) (r : Reservation) : Bool :=
  decide (r.catwayNumber = catwayNumber) && overlapOr r checkIn checkOut

/-- `Model.findOne(filter)`: the first document, in natural order, that the filter
matches. -/
def findOne {α : Type} (filter : α → Bool) (docs : List α) : Option α :=
  docs.find? filter

/-- The half-open intervals `[a, b)` and `[c, d)` have a point in common. -/
def intersects (a b c d : Int) : Prop :=
  max a c < min b d

instance (a b c d : Int) : Decidable (intersects a b c d) := by
  unfold intersects; infer_instance

/-! ## Requests and responses -/

/-- A request body `req.body`, as parsed from JSON: the keys the application reads, each
present or absent, and the names of any other keys.  Values have the type the schemas
declare for them (an integer, a string, a date as a timestamp). -/
structure JsonBody where
  catwayNumber : Option Int := none
  clientName : Option String := none
  boatName : Option String := none
  checkIn : Option Int := none
  checkOut : Option Int := none
  type : Option String := none
  catwayState : Option String := none
  username : Option String := none
  email : Option String := none
  password : Option String := none
  otherKeys : List String := []
deriving DecidableEq

/-- The path segment bound to a route parameter such as `:catwayNumber`, as the number
cast of the model reads it: an integer, or a text the cast rejects with a `CastError`. -/
inductive PathParam
  | number (n : Int)
  | notNumber (raw : String)
deriving DecidableEq

/-- The payload `jwt.verify` yields: the signed object with its issue and expiry times, in
seconds. -/
structure JwtPayload where
  name : String
  iat : Nat
  exp : Nat
deriving DecidableEq

/-- An incoming request: the `Authorization` header, the path parameter of the route (if
it has one), the body, and `req.user`, which `authenticateToken` sets. -/
structure Request where
  authorization : Option String := none
  param : PathParam := PathParam.notNumber ""
  body : JsonBody := {}
  user : Option JwtPayload := none
deriving DecidableEq

/-- One entry of `error.details` of a Joi validation error: the rule violated and the
key.  `unknown` is `object.unknown`, which names the first key of the body that the schema
does not declare; the body model keeps no key order, so the entry carries no key. -/
inductive ValidationDetail
  | required (key : String)
  | numberUnsafe (key : String)
  | stringEmpty (key : String)
  | stringMin (key : String)
  | stringMax (key : String)
  | dateBase (key : String)
  | dateMin (key : String)
  | unknown
deriving DecidableEq

/-- The HTML pages the handlers render, by their content. -/
inductive Page
  | catwayList (catways : List Catway)
  | catwayDetail (catway : Catway)
  | catwayNotFound (param : PathParam)
  | reservationList (reservations : List Reservation)
  | reservationDetail (reservation : Reservation)
  | reservationNotFound (param : PathParam)
deriving DecidableEq

/-- A response body. -/
inductive Body
  | message (message : String)
  | messageError (message : String)
  | validationError (message : String) (details : List ValidationDetail)
  | accessToken (accessToken : String)
  | catway (catway : Catway)
  | reservation (reservation : Reservation)
  | html (page : Page)
  | text (text : String)
deriving DecidableEq

/-- The body was sent with `res.json`, as a JSON value; `false` for a page or a text sent
with `res.send`. -/
def Body.isJson : Body → Bool
  | Body.html _ => false
  | Body.text _ => false
  | _ => true

/-- A response: `res.status(status)` and the body sent. -/
structure Response where
  status : Nat
  body : Body
deriving DecidableEq

/-- What a middleware does with a request: it calls `next()`, passing the request on, or
it sends a response. -/
inductive MwResult
  | next (req : Request)
  | respond (res : Response)
deriving DecidableEq

/-- The result of serving a request: the response, the store afterwards, and whether the
route handler was invoked. -/
structure Outcome where
  response : Response
  store : Store
  handlerRan : Bool
deriving DecidableEq

/-- A route handler: from the request and the store to the response and the new store. -/
abbrev Handler := Request → Store → Response × Store

/-- Express runs the middlewares of a route in order; each one either responds, which
ends the request, or calls `next`; after the last one the handler runs. -/
def runChain (mws : List (Request → MwResult)) (handler : Handler) (req : Request)
    (s : Store) : Outcome :=
  match mws with
  | [] => { response := (handler req s).1, store := (handler req s).2, handlerRan := true }
  | mw :: rest =>
    match mw req with
    | MwResult.respond res => { response := res, store := s, handlerRan := false }
    | MwResult.next req1 => runChain rest handler req1 s

/-! ## The environment: `jsonwebtoken`, the clock, the database connection -/

/-- The two functions of `jsonwebtoken` the application calls.
`sign name secret now expiresIn` is `jwt.sign({ name }, secret, { expiresIn })` at time
`now`; `verify token secret now` is the payload `jwt.verify(token, secret, cb)`
hands to its callback at time `now`, or `none` when it hands it an error. -/
structure JwtLib where
  sign : String → String → Nat → Nat → String
  verify : String → String → Nat → Option JwtPayload

/-- What the application relies on from `jsonwebtoken`: a token verifies under the secret
it was signed with exactly until its expiry time, yielding the signed name; and a token is
a non-empty text without a space. -/
def JwtLib.Lawful (lib : JwtLib) : Prop :=
  (∀ name secret iat ttl now,
      lib.verify (lib.sign name secret iat ttl) secret now =
        if now < iat + ttl then some { name := name, iat := iat, exp := iat + ttl } else none)
  ∧ (∀ name secret iat ttl,
      (lib.sign name secret iat ttl).data ≠ [] ∧ ' ' ∉ (lib.sign name secret iat ttl).data)

/-- What a request runs against: the token library, `process.env.ACCESS_TOKEN_SECRET`,
the time in seconds, whether the operations awaited on the database succeed (`false`: each
one throws, as when the connection is lost), and `bcrypt.compare`. -/
structure Env where
  jwt : JwtLib
  secret : String
  now : Nat
  dbUp : Bool
  bcryptCompare : String → String → Bool

/-! ## `middlewares/auth.js` -/

/-- JavaScript's `text.split(sep)` for a one-character separator, on the characters of the
text. -/
def splitOn (sep : Char) : List Char → List (List Char)
  | [] => [[]]
  | c :: cs =>
    if c = sep then [] :: splitOn sep cs
    else
      match splitOn sep cs with
      | seg :: segs => (c :: seg) :: segs
      | [] => [[c]]

/-- The value of `authHeader && authHeader.split(' ')[1]`, as the token to verify: `none`
when the value is falsy (the header is absent or empty, there is no second segment, or the
second segment is empty). -/
def bearerToken (authHeader : Option String) : Option String :=
  match authHeader with
  | none => none
  | some h =>
    if h = "" then none
    else
      match (splitOn ' ' h.data)[1]? with
      | none => none
      | some seg => if seg = [] then none else some (String.mk seg)

/-- The middleware `authenticateToken`. -/
def authenticateToken (env : Env) (req : Request) : MwResult :=
  match bearerToken req.authorization with
  | none => MwResult.respond { status := 401, body := Body.message "Accès refusé : Token manquant." }
  | some token =>
    match env.jwt.verify token env.secret env.now with
    | none => MwResult.respond { status := 403, body := Body.message "Token invalide." }
    | some user => MwResult.next { req with user := some user }

/-! ## `middlewares/validation.js` -/

/-- The `length` of a JavaScript string: its number of UTF-16 code units. -/
def jsLength (s : String) : Nat :=
  (s.data.map (fun c => if c.toNat < 65536 then 1 else 2)).sum

/-- `Joi.string().min(3).max(50).required()` on the value of `key`. -/
def validateName (key : String) (value : Option String) : Option ValidationDetail :=
  match value with
  | none => some (ValidationDetail.required key)
  | some v =>
    if v = "" then some (ValidationDetail.stringEmpty key)
    else if jsLength v < 3 then some (ValidationDetail.stringMin key)
    else if jsLength v > 50 then some (ValidationDetail.stringMax key)
    else none

/-- `Number.isSafeInteger` on an integer: `Joi.number()` refuses, with `number.unsafe`, a
number above `Number.MAX_SAFE_INTEGER` = 2^53 - 1 or below its opposite. -/
def isSafeInteger (n : Int) : Bool :=
  decide (-9007199254740991 ≤ n ∧ n ≤ 9007199254740991)

/-- The timestamp is one a JavaScript `Date` can hold, at most 8.64e15 milliseconds from
the epoch: `Joi.date()` refuses any other with `date.base`. -/
def isValidDate (t : Int) : Bool :=
  decide (-8640000000000000 ≤ t ∧ t ≤ 8640000000000000)

/-- The body holds a key that `reservationSchema` does not declare. -/
def hasUnknownKey (b : JsonBody) : Bool :=
  b.type.isSome || b.catwayState.isSome || b.username.isSome || b.email.isSome
    || b.password.isSome || !b.otherKeys.isEmpty

/-- `reservationSchema.validate(req.body).error`: the first violation found, keys taken in
the order of the schema, unknown keys last; `none` when the body is valid. -/
def reservationSchema.validate (b : JsonBody) : Option ValidationDetail :=
  match b.catwayNumber with
  | none => some (ValidationDetail.required "catwayNumber")
  | some c =>
    if isSafeInteger c then
      match validateName "clientName" b.clientName with
      | some e => some e
      | none =>
        match validateName "boatName" b.boatName with
        | some e => some e
        | none =>
          match b.checkIn with
          | none => some (ValidationDetail.required "checkIn")
          | some checkIn =>
            if isValidDate checkIn then
              match b.checkOut with
              | none => some (ValidationDetail.required "checkOut")
              | some checkOut =>
                if isValidDate checkOut then
                  if checkOut < checkIn then some (ValidationDetail.dateMin "checkOut")
                  else if hasUnknownKey b then some ValidationDetail.unknown
                  else none
                else some (ValidationDetail.dateBase "checkOut")
            else some (ValidationDetail.dateBase "checkIn")
    else some (ValidationDetail.numberUnsafe "catwayNumber")

/-- The middleware `validateReservation`. -/
def validateReservation (req : Request) : MwResult :=
  match reservationSchema.validate req.body with
  | some error =>
    MwResult.respond { status := 400, body := Body.validationError "Validation error" [error] }
  | none => MwResult.next req

/-! ## Store operations of the models -/

/-- `Model.findOneAndUpdate(filter, update, { new: true })` on a collection: the first
document the filter matches is replaced by its update; the result is the updated document
and the collection afterwards, or `none` when no document matches. -/
def findOneAndUpdate {α : Type} (filter : α → Bool) (update : α → α) :
    List α → Option (α × List α)
  | [] => none
  | d :: ds =>
    if filter d then some (update d, update d :: ds)
    else
      match findOneAndUpdate filter update ds with
      | none => none
      | some (u, ds1) => some (u, d :: ds1)

/-- `Model.findOneAndDelete(filter)` on a collection: the first document the filter
matches is removed; the result is that document and the collection afterwards, or `none`
when no document matches. -/
def findOneAndDelete {α : Type} (filter : α → Bool) : List α → Option (α × List α)
  | [] => none
  | d :: ds =>
    if filter d then some (d, ds)
    else
      match findOneAndDelete filter ds with
      | none => none
      | some (u, ds1) => some (u, d :: ds1)

/-- Modelled from the spec: `new Reservation(req.body)` of the absent
`models/Reservation.js`, whose five fields the schema requires (section 4.4); `none` when
one is absent, which makes `save()` throw a validation error. -/
def reservationOfBody (id : Nat) (b : JsonBody) : Option Reservation :=
  match b.catwayNumber, b.clientName, b.boatName, b.checkIn, b.checkOut with
  | some c, some client, some boat, some checkIn, some checkOut =>
    some { id := id, catwayNumber := c, clientName := client, boatName := boat,
           checkIn := checkIn, checkOut := checkOut }
  | _, _, _, _, _ => none

/-- The update `req.body` applied to a stored reservation: the fields of the schema that
the body holds are set, the others and `_id` are kept. -/
def updateReservation (b : JsonBody) (r : Reservation) : Reservation :=
  { id := r.id,
    catwayNumber := b.catwayNumber.getD r.catwayNumber,
    clientName := b.clientName.getD r.clientName,
    boatName := b.boatName.getD r.boatName,
    checkIn := b.checkIn.getD r.checkIn,
    checkOut := b.checkOut.getD r.checkOut }

/-- Modelled from the spec: `new Catway(req.body)` of the absent `models/Catway.js`, whose
three fields are required (sections 3 and 6); `none` when one is absent. -/
def catwayOfBody (b : JsonBody) : Option Catway :=
  match b.catwayNumber, b.type, b.catwayState with
  | some n, some t, some st => some { catwayNumber := n, type := t, catwayState := st }
  | _, _, _ => none

/-- Modelled from the spec: `new Catway(req.body).save()` of the absent `models/Catway.js`:
the saved document and the collection afterwards; `none`, a thrown error, when a required
field is absent or the `catwayNumber`, which is unique, is already stored. -/
def saveCatway (docs : List Catway) (b : JsonBody) : Option (Catway × List Catway) :=
  match catwayOfBody b with
  | none => none
  | some c =>
    if docs.any (fun d => decide (d.catwayNumber = c.catwayNumber)) then none
    else some (c, docs ++ [c])

/-- The update `req.body` applied to a stored catway. -/
def updateCatway (b : JsonBody) (c : Catway) : Catway :=
  { catwayNumber := b.catwayNumber.getD c.catwayNumber,
    type := b.type.getD c.type,
    catwayState := b.catwayState.getD c.catwayState }

/-- The conflict query with the operands as the request body holds them.  An absent operand
reaches the query as `null`, which no stored number or date equals or is ordered against, so
no document matches.  `also` is the rest of the filter. -/
def conflictQuery (docs : List Reservation) (b : JsonBody) (also : Reservation → Bool) :
    Option Reservation :=
  match b.catwayNumber, b.checkIn, b.checkOut with
  | some c, some checkIn, some checkOut =>
    findOne (fun r => conflictFilter c checkIn checkOut r && also r) docs
  | _, _, _ => none

/-! ## `routes/reservationRoutes.js` -/

/-- The handler of `GET /reservations`. -/
def getReservationsHandler (env : Env) : Handler := fun _ s =>
  if env.dbUp then
    ({ status := 200, body := Body.html (Page.reservationList s.reservations) }, s)
  else
    ({ status := 500, body := Body.text "Erreur lors de la récupération des réservations." }, s)

/-- The handler of `GET /reservations/:catwayNumber`. -/
def getReservationHandler (env : Env) : Handler := fun req s =>
  let failed : Response :=
    { status := 500,
      body := Body.text "Erreur lors de la récupération des détails de la réservation." }
  if env.dbUp then
    match req.param with
    | PathParam.notNumber _ => (failed, s)
    | PathParam.number n =>
      match findOne (fun r => decide (r.catwayNumber = n)) s.reservations with
      | none => ({ status := 404, body := Body.html (Page.reservationNotFound req.param) }, s)
      | some r => ({ status := 200, body := Body.html (Page.reservationDetail r) }, s)
  else (failed, s)

/-- The handler of `POST /reservations`. -/
def postReservationsHandler (env : Env) : Handler := fun req s =>
  let failed : Response :=
    { status := 400, body := Body.messageError "Erreur lors de la création de la réservation" }
  if env.dbUp then
    match conflictQuery s.reservations req.body (fun _ => true) with
    | some _ =>
      ({ status := 400,
         body := Body.message
           "Conflit de réservation : un catway est déjà réservé pour cette période." }, s)
    | none =>
      match reservationOfBody s.nextId req.body with
      | none => (failed, s)
      | some r =>
        ({ status := 201, body := Body.reservation r },
         { s with reservations := s.reservations ++ [r], nextId := s.nextId + 1 })
  else (failed, s)

/-- The value of `req.params.id` in the route `PUT /reservations/:catwayNumber`: the route
declares the parameter `catwayNumber` only, so `id` is undefined. -/
def putReservationParamsId : Option Nat := none

/-- The handler of `PUT /reservations/:catwayNumber`. -/
def putReservationHandler (env : Env) : Handler := fun req s =>
  let failed : Response :=
    { status := 400,
      body := Body.messageError "Erreur lors de la mise à jour de la réservation" }
  if env.dbUp then
    match conflictQuery s.reservations req.body
        (fun r => decide (some r.id ≠ putReservationParamsId)) with
    | some _ =>
      ({ status := 400,
         body := Body.message
           "Conflit de réservation : un catway est déjà réservé pour cette période." }, s)
    | none =>
      match req.param with
      | PathParam.notNumber _ => (failed, s)
      | PathParam.number n =>
        match findOneAndUpdate (fun r => decide (r.catwayNumber = n))
            (updateReservation req.body) s.reservations with
        | none => ({ status := 404, body := Body.message "Réservation non trouvée" }, s)
        | some (updated, docs) =>
          ({ status := 200, body := Body.reservation updated }, { s with reservations := docs })
  else (failed, s)

/-- The handler of `DELETE /reservations/:catwayNumber`. -/
def deleteReservationHandler (env : Env) : Handler := fun req s =>
  let failed : Response :=
    { status := 500,
      body := Body.messageError "Erreur lors de la suppression de la réservation" }
  if env.dbUp then
    match req.param with
    | PathParam.notNumber _ => (failed, s)
    | PathParam.number n =>
      match findOneAndDelete (fun r => decide (r.catwayNumber = n)) s.reservations with
      | none => ({ status := 404, body := Body.message "Réservation non trouvée" }, s)
      | some (_, docs) =>
        ({ status := 200, body := Body.message "Réservation supprimée avec succès" },
         { s with reservations := docs })
  else (failed, s)

/-! ## `routes/catwayRoutes.js` -/

/-- The handler of `GET /catways`. -/
def getCatwaysHandler (env : Env) : Handler := fun _ s =>
  if env.dbUp then ({ status := 200, body := Body.html (Page.catwayList s.catways) }, s)
  else ({ status := 500, body := Body.text "Erreur lors de la récupération des catways." }, s)

/-- The handler of `GET /catways/:catwayNumber`. -/
def getCatwayHandler (env : Env) : Handler := fun req s =>
  let failed : Response :=
    { status := 500, body := Body.text "Erreur lors de la récupération des détails du catway." }
  if env.dbUp then
    match req.param with
    | PathParam.notNumber _ => (failed, s)
    | PathParam.number n =>
      match findOne (fun c => decide (c.catwayNumber = n)) s.catways with
      | none => ({ status := 404, body := Body.html (Page.catwayNotFound req.param) }, s)
      | some c => ({ status := 200, body := Body.html (Page.catwayDetail c) }, s)
  else (failed, s)

/-- The handler of `POST /catways`. -/
def postCatwaysHandler (env : Env) : Handler := fun req s =>
  let failed : Response :=
    { status := 400, body := Body.messageError "Erreur lors de la création du catway" }
  if env.dbUp then
    match saveCatway s.catways req.body with
    | none => (failed, s)
    | some (c, docs) => ({ status := 201, body := Body.catway c }, { s with catways := docs })
  else (failed, s)

/-- The handler of `PUT /catways/:catwayNumber`. -/
def putCatwayHandler (env : Env) : Handler := fun req s =>
  let failed : Response :=
    { status := 400, body := Body.messageError "Erreur lors de la mise à jour du catway" }
  if env.dbUp then
    match req.param with
    | PathParam.notNumber _ => (failed, s)
    | PathParam.number n =>
      match findOneAndUpdate (fun c => decide (c.catwayNumber = n)) (updateCatway req.body)
          s.catways with
      | none => ({ status := 404, body := Body.message "Catway non trouvé" }, s)
      | some (updated, docs) =>
        ({ status := 200, body := Body.catway updated }, { s with catways := docs })
  else (failed, s)

/-- The handler of `DELETE /catways/:catwayNumber`. -/
def deleteCatwayHandler (env : Env) : Handler := fun req s =>
  let failed : Response :=
    { status := 500, body := Body.messageError "Erreur lors de la suppression du catway" }
  if env.dbUp then
    match req.param with
    | PathParam.notNumber _ => (failed, s)
    | PathParam.number n =>
      match findOneAndDelete (fun c => decide (c.catwayNumber = n)) s.catways with
      | none => ({ status := 404, body := Body.message "Catway non trouvé" }, s)
      | some (_, docs) =>
        ({ status := 200, body := Body.message "Catway supprimé avec succès" },
         { s with catways := docs })
  else (failed, s)

/-! ## `server.js`: the two handlers registered for `POST /login` -/

/-- The handler `app.post('/login', ...)` registered first (line 159): it signs a token
for the `username` of the body, for one hour, and reads nothing else. -/
def loginHandler (env : Env) : Handler := fun req s =>
  match req.body.username with
  | none => ({ status := 400, body := Body.message "Nom d\x27utilisateur requis." }, s)
  | some username =>
    if username = "" then
      ({ status := 400, body := Body.message "Nom d\x27utilisateur requis." }, s)
    else
      ({ status := 200,
         body := Body.accessToken (env.jwt.sign username env.secret env.now 3600) }, s)

/-- The handler `app.post('/login', ...)` registered second (line 195), as its text reads
once `User` and `bcrypt` are bound to the user model and the bcrypt library: it looks the
user up and compares the password with the stored hash.  `server.js` imports neither name;
`loginCheckedAsRegistered` is the handler as the file runs it.  Behind the first
registration it is never run. -/
def loginCheckedHandler (env : Env) : Handler := fun req s =>
  let failed : Response :=
    { status := 500, body := Body.messageError "Erreur lors de la connexion." }
  if env.dbUp then
    match findOne (fun u => decide (some u.username = req.body.username)) s.users with
    | none => ({ status := 404, body := Body.message "Utilisateur non trouvé." }, s)
    | some user =>
      match req.body.password with
      | none => (failed, s)
      | some password =>
        if env.bcryptCompare password user.password then
          ({ status := 200,
             body := Body.accessToken (env.jwt.sign user.username env.secret env.now 3600) }, s)
        else ({ status := 403, body := Body.message "Mot de passe incorrect." }, s)
  else (failed, s)

/-- The handler `app.post('/login', ...)` registered second (line 195), as `server.js` runs
it: the file imports neither the user model nor bcrypt, so `User.findOne` in the try block
throws a ReferenceError, which the catch block answers with 500, whatever the request and
the store. -/
def loginCheckedAsRegistered : Handler := fun _ s =>
  ({ status := 500, body := Body.messageError "Erreur lors de la connexion." }, s)

/-! ## The routes, in the order `server.js` registers them -/

/-- The HTTP methods the application registers routes for. -/
inductive Method
  | GET | POST | PUT | DELETE
deriving DecidableEq

/-- A segment of a route path: a literal or a parameter such as `:catwayNumber`. -/
inductive Seg
  | lit (text : String)
  | param (name : String)
deriving DecidableEq

/-- The middlewares that stand in front of handlers. -/
inductive Mw
  | authenticateToken
  | validateReservation
  | swaggerServe
deriving DecidableEq

/-- The handlers, named after what they serve. -/
inductive HandlerId
  | home | testModels | login | loginPage | loginChecked | swaggerSetup
  | getCatways | getCatway | postCatways | putCatway | deleteCatway
  | getReservations | getReservation | postReservations | putReservation | deleteReservation
  | postUsers | deleteUser | getUser | getUsers
  | dashboard
deriving DecidableEq

/-- A registered route: `app.METHOD(path, ...middlewares, handler)`, or with `method`
absent `app.use(path, ...)`, which serves every method and every path under `path`. -/
structure Route where
  method : Option Method
  path : List Seg
  middlewares : List Mw
  handler : HandlerId
deriving DecidableEq

/-- Every route of the application, the routers mounted by `app.use` flattened under
their mount path, in registration order. -/
def routes : List Route :=
  [ { method := some Method.GET, path := [], middlewares := [], handler := HandlerId.home },
    { method := some Method.GET, path := [Seg.lit "test-models"], middlewares := [],
      handler := HandlerId.testModels },
    { method := some Method.POST, path := [Seg.lit "login"], middlewares := [],
      handler := HandlerId.login },
    { method := some Method.GET, path := [Seg.lit "login"], middlewares := [],
      handler := HandlerId.loginPage },
    { method := some Method.POST, path := [Seg.lit "login"], middlewares := [],
      handler := HandlerId.loginChecked },
    { method := none, path := [Seg.lit "api-docs"], middlewares := [Mw.swaggerServe],
      handler := HandlerId.swaggerSetup },
    { method := some Method.GET, path := [Seg.lit "catways"],
      middlewares := [Mw.authenticateToken], handler := HandlerId.getCatways },
    { method := some Method.GET, path := [Seg.lit "catways", Seg.param "catwayNumber"],
      middlewares := [Mw.authenticateToken], handler := HandlerId.getCatway },
    { method := some Method.POST, path := [Seg.lit "catways"],
      middlewares := [Mw.authenticateToken], handler := HandlerId.postCatways },
    { method := some Method.PUT, path := [Seg.lit "catways", Seg.param "catwayNumber"],
      middlewares := [Mw.authenticateToken], handler := HandlerId.putCatway },
    { method := some Method.DELETE, path := [Seg.lit "catways", Seg.param "catwayNumber"],
      middlewares := [Mw.authenticateToken], handler := HandlerId.deleteCatway },
    { method := some Method.GET, path := [Seg.lit "reservations"],
      middlewares := [Mw.authenticateToken], handler := HandlerId.getReservations },
    { method := some Method.GET, path := [Seg.lit "reservations", Seg.param "catwayNumber"],
      middlewares := [Mw.authenticateToken], handler := HandlerId.getReservation },
    { method := some Method.POST, path := [Seg.lit "reservations"],
      middlewares := [Mw.authenticateToken, Mw.validateReservation],
      handler := HandlerId.postReservations },
    { method := some Method.PUT, path := [Seg.lit "reservations", Seg.param "catwayNumber"],
      middlewares := [Mw.authenticateToken, Mw.validateReservation],
      handler := HandlerId.putReservation },
    { method := some Method.DELETE,
      path := [Seg.lit "reservations", Seg.param "catwayNumber"],
      middlewares := [Mw.authenticateToken], handler := HandlerId.deleteReservation },
    { method := some Method.POST, path := [Seg.lit "users"], middlewares := [],
      handler := HandlerId.postUsers },
    { method := some Method.DELETE, path := [Seg.lit "users", Seg.param "username"],
      middlewares := [Mw.authenticateToken], handler := HandlerId.deleteUser },
    { method := some Method.GET, path := [Seg.lit "users", Seg.param "username"],
      middlewares := [Mw.authenticateToken], handler := HandlerId.getUser },
    { method := some Method.GET, path := [Seg.lit "users"],
      middlewares := [Mw.authenticateToken], handler := HandlerId.getUsers },
    { method := some Method.GET, path := [Seg.lit "dashboard"],
      middlewares := [Mw.authenticateToken], handler := HandlerId.dashboard } ]

/-- A route path matches the segments of a request path: literal against equal text, a
parameter against any non-empty segment; a mounted path (`mount`) matches a beginning. -/
def matchPath (mount : Bool) : List Seg → List String → Bool
  | [], [] => true
  | [], _ :: _ => mount
  | _ :: _, [] => false
  | Seg.lit text :: ps, seg :: segs => decide (text = seg) && matchPath mount ps segs
  | Seg.param _ :: ps, seg :: segs => decide (seg ≠ "") && matchPath mount ps segs

/-- Whether a route serves a request of the given method and path. -/
def Route.accepts (r : Route) (method : Method) (path : List String) : Bool :=
  match r.method with
  | some m => decide (m = method) && matchPath false r.path path
  | none => matchPath true r.path path

/-- The route Express hands a request to: the first registered one that accepts it.  No
handler of the application calls `next`, so a later route that accepts the same request
never runs. -/
def matchRoute (method : Method) (path : List String) : Option Route :=
  routes.find? (fun r => r.accepts method path)

/-- The function behind a middleware name.  `swaggerUi.serve` hands over the static files
of the documentation page, which are not modelled: it passes the request on. -/
def mwOf (env : Env) : Mw → Request → MwResult
  | Mw.authenticateToken => authenticateToken env
  | Mw.validateReservation => validateReservation
  | Mw.swaggerServe => MwResult.next

/-- A route run with a given function for its handler. -/
def Route.run (r : Route) (env : Env) (handler : Handler) (req : Request) (s : Store) :
    Outcome :=
  runChain (r.middlewares.map (mwOf env)) handler req s

/-! ## The endpoints -/

/-- `POST /login`: the route registered first for it, without a middleware. -/
def postLogin (env : Env) (req : Request) (s : Store) : Outcome :=
  runChain [] (loginHandler env) req s

/-- `router.post('/', [authenticateToken, validateReservation], ...)` under
`/reservations`. -/
def postReservations (env : Env) (req : Request) (s : Store) : Outcome :=
  runChain [authenticateToken env, validateReservation] (postReservationsHandler env) req s

/-- `router.put('/:catwayNumber', [authenticateToken, validateReservation], ...)` under
`/reservations`. -/
def putReservation (env : Env) (req : Request) (s : Store) : Outcome :=
  runChain [authenticateToken env, validateReservation] (putReservationHandler env) req s

/-- `router.delete('/:catwayNumber', authenticateToken, ...)` under `/reservations`. -/
def deleteReservation (env : Env) (req : Request) (s : Store) : Outcome :=
  runChain [authenticateToken env] (deleteReservationHandler env) req s

/-- `router.get('/', authenticateToken, ...)` under `/reservations`. -/
def getReservations (env : Env) (req : Request) (s : Store) : Outcome :=
  runChain [authenticateToken env] (getReservationsHandler env) req s

/-- `router.get('/:catwayNumber', authenticateToken, ...)` under `/reservations`. -/
def getReservation (env : Env) (req : Request) (s : Store) : Outcome :=
  runChain [authenticateToken env] (getReservationHandler env) req s

/-- `router.get('/', authenticateToken, ...)` under `/catways`. -/
def getCatways (env : Env) (req : Request) (s : Store) : Outcome :=
  runChain [authenticateToken env] (getCatwaysHandler env) req s

/-- `router.get('/:catwayNumber', authenticateToken, ...)` under `/catways`. -/
def getCatway (env : Env) (req : Request) (s : Store) : Outcome :=
  runChain [authenticateToken env] (getCatwayHandler env) req s

/-- `router.post('/', authenticateToken, ...)` under `/catways`. -/
def postCatways (env : Env) (req : Request) (s : Store) : Outcome :=
  runChain [authenticateToken env] (postCatwaysHandler env) req s

/-- `router.put('/:catwayNumber', authenticateToken, ...)` under `/catways`. -/
def putCatway (env : Env) (req : Request) (s : Store) : Outcome :=
  runChain [authenticateToken env] (putCatwayHandler env) req s

/-- `router.delete('/:catwayNumber', authenticateToken, ...)` under `/catways`. -/
def deleteCatway (env : Env) (req : Request) (s : Store) : Outcome :=
  runChain [authenticateToken env] (deleteCatwayHandler env) req s

/-! ## Properties stated about the store -/

/-- Two reservations have overlapping half-open intervals `[checkIn, checkOut)`. -/
def overlaps (r1 r2 : Reservation) : Prop :=
  intersects r1.checkIn r1.checkOut r2.checkIn r2.checkOut

/-- Reservation non-overlap: no two stored reservations with the same catwayNumber have
overlapping intervals. -/
def NonOverlap (docs : List Reservation) : Prop :=
  docs.Pairwise (fun r1 r2 => r1.catwayNumber = r2.catwayNumber → ¬ overlaps r1 r2)

/-- The request passes `authenticateToken`, which sets `req.user` and calls `next`. -/
def Authenticated (env : Env) (req : Request) : Prop :=
  ∃ user, authenticateToken env req = MwResult.next { req with user := some user }

/-- The condition under which the conflict query matches a stored reservation over
`[c, d]` for a request over `[a, b]`, when `a ≤ b` and `c ≤ d`: the half-open intervals
intersect, or one of the two intervals has equal ends and the closed intervals intersect. -/
def conflictCondition (a b c d : Int) : Prop :=
  if a < b ∧ c < d then intersects a b c d else a ≤ d ∧ c ≤ b

instance (a b c d : Int) : Decidable (conflictCondition a b c d) := by
  unfold conflictCondition; infer_instance

/-! ## A small token library, for concrete instances -/

/-- A name written without a space: a space becomes `_s` and `_` becomes `__`. -/
def toyEncodeName : List Char → List Char
  | [] => []
  | c :: cs =>
    if c = ' ' then '_' :: 's' :: toyEncodeName cs
    else if c = '_' then '_' :: '_' :: toyEncodeName cs
    else c :: toyEncodeName cs

/-- The inverse of `toyEncodeName`; `pending` tells that the character before was the
escape `_`. -/
def toyDecodeName (pending : Bool) : List Char → List Char
  | [] => if pending then ['_'] else []
  | c :: cs =>
    if pending then (if c = 's' then ' ' else '_') :: toyDecodeName false cs
    else if c = '_' then toyDecodeName true cs
    else c :: toyDecodeName false cs

/-- A token library that writes the issue time as a run of `i`, the validity as a run of
`t`, then a dot and the name; it keeps no signature, so it accepts a well-formed token under
any secret. -/
def toyJwt : JwtLib :=
  { sign := fun name _ iat ttl =>
      String.mk (List.replicate iat 'i' ++ (List.replicate ttl 't' ++ '.' :: toyEncodeName name.data))
    verify := fun token _ now =>
      let iat := (token.data.takeWhile (fun c => c = 'i')).length
      let rest := token.data.dropWhile (fun c => c = 'i')
      let ttl := (rest.takeWhile (fun c => c = 't')).length
      match rest.dropWhile (fun c => c = 't') with
      | [] => none
      | c :: name =>
        if c = '.' ∧ now < iat + ttl then
          some { name := String.mk (toyDecodeName false name), iat := iat, exp := iat + ttl }
        else none }

/-- An environment for concrete instances: the clock reads 2 and the database answers. -/
def demoEnv : Env :=
  { jwt := toyJwt, secret := "secret", now := 2, dbUp := true,
    bcryptCompare := fun password hash => password == hash }

/-- A header carrying a token of `toyJwt` for alice, issued at 0 and valid until 5. -/
def aliceHeader : Option String := some "Bearer ttttt.alice"

/-- A store without any document. -/
def emptyStore : Store := { users := [], catways := [], reservations := [], nextId := 0 }

/-- The handlers the claim on authentication leaves open to all: account creation, login
(both registrations), the root page and the login page. -/
def openHandlers : List HandlerId :=
  [HandlerId.postUsers, HandlerId.login, HandlerId.loginChecked, HandlerId.home,
   HandlerId.loginPage]

/-- The handlers registered without `authenticateToken`: those of `openHandlers`, the test
route `/test-models` and the documentation mounted at `/api-docs`. -/
def unguardedHandlers : List HandlerId :=
  openHandlers ++ [HandlerId.testModels, HandlerId.swaggerSetup]

/-- The route `GET /test-models` as registered. -/
def testModelsRoute : Route :=
  { method := some Method.GET, path := [Seg.lit "test-models"], middlewares := [],
    handler := HandlerId.testModels }

/-! ## Example data -/

/-- The reservation of the scenario of section 8, with days for dates: catway 1 from day
20 to day 25. -/
def johnDoe : Reservation :=
  { id := 0, catwayNumber := 1, clientName := "John Doe", boatName := "Sea Breeze",
    checkIn := 20, checkOut := 25 }

/-- A reservation body for the given catway and dates. -/
def bodyFor (catwayNumber checkIn checkOut : Int) : JsonBody :=
  { catwayNumber := some catwayNumber, clientName := some "Ann Lee",
    boatName := some "Albatros", checkIn := some checkIn, checkOut := some checkOut }

/-- A login body for a name no user record has. -/
def ghostLogin : Request :=
  { body := { username := some "ghost", password := some "anything" } }

/-- A store whose only user is alice, with the hash `hash-of-secret`. -/
def aliceStore : Store :=
  { emptyStore with
    users := [{ username := "alice", email := "alice@example.org", password := "hash-of-secret" }] }

/-- A login body for alice with a password that does not match her hash. -/
def aliceWrongLogin : Request :=
  { body := { username := some "alice", password := some "wrong" } }

/-- A login body holding the name alice. -/
def aliceLogin : Request :=
  { body := { username := some "alice", password := some "hash-of-secret" } }

/-- The catway of the scenario of section 8 as a request body. -/
def catwayOneBody : JsonBody :=
  { catwayNumber := some 1, type := some "long", catwayState := some "Disponible" }

/-- Catway numbers are unique in the collection. -/
def UniqueCatways (docs : List Catway) : Prop :=
  docs.Pairwise (fun c d => c.catwayNumber ≠ d.catwayNumber)

/-- The second segment of a header value cut at its spaces, `authHeader.split(' ')[1]`,
absent when the value holds no space. -/
def secondSegment (authHeader : String) : Option (List Char) :=
  (splitOn ' ' authHeader.data)[1]?

/-- The environment of `demoEnv` with the database not answering. -/
def downEnv : Env := { demoEnv with dbUp := false }

/-- A store holding the reservation `johnDoe` only. -/
def johnStore : Store := { emptyStore with reservations := [johnDoe], nextId := 1 }

/-- A second reservation of catway 1, from day 30 to day 35. -/
def janeRoe : Reservation :=
  { id := 1, catwayNumber := 1, clientName := "Jane Roe", boatName := "Mistral",
    checkIn := 30, checkOut := 35 }

/-- A store holding two catways, numbered 4 and 7. -/
def twoCatways : Store :=
  { emptyStore with
    catways := [{ catwayNumber := 4, type := "short", catwayState := "Disponible" },
                { catwayNumber := 7, type := "long", catwayState := "Disponible" }] }

/-- A store holding two reservations of catway 1, `johnDoe` and `janeRoe`. -/
def twoReservations : Store :=
  { emptyStore with reservations := [johnDoe, janeRoe], nextId := 2 }

/-- A name of 50 characters. -/
def fiftyChars : String := "12345678901234567890123456789012345678901234567890"

/-- A reservation body holding the five fields only, with the given catwayNumber and names,
from day 20 to day 20. -/
def namedBody (catwayNumber : Int) (clientName boatName : String) : JsonBody :=
  { catwayNumber := some catwayNumber, clientName := some clientName,
    boatName := some boatName, checkIn := some 20, checkOut := some 20 }

/-! ## Lemmas on the conflict query -/

theorem intersects_iff_exists (a b c d : Int) :
    intersects a b c d ↔ ∃ t : Int, a ≤ t ∧ t < b ∧ c ≤ t ∧ t < d := by
  unfold intersects
  constructor
  · intro h
    refine ⟨max a c, le_max_left _ _, ?_, le_max_right _ _, ?_⟩
    · exact lt_of_lt_of_le h (min_le_left _ _)
    · exact lt_of_lt_of_le h (min_le_right _ _)
  · rintro ⟨t, h1, h2, h3, h4⟩
    exact lt_of_le_of_lt (max_le h1 h3) (lt_min h2 h4)

theorem intersects_iff_lt (a b c d : Int) (hab : a < b) (hcd : c < d) :
    intersects a b c d ↔ c < b ∧ a < d := by
  unfold intersects
  simp only [max_lt_iff, lt_min_iff]
  constructor
  · intro h; omega
  · intro h; omega

theorem overlapOr_iff (r : Reservation) (a b : Int) :
    overlapOr r a b = true ↔
      (a ≤ r.checkIn ∧ r.checkIn < b) ∨ (a < r.checkOut ∧ r.checkOut ≤ b)
        ∨ (r.checkIn ≤ a ∧ b ≤ r.checkOut) := by
  simp only [overlapOr, Bool.or_eq_true, Bool.and_eq_true, decide_eq_true_eq, ge_iff_le,
    gt_iff_lt]
  tauto

/-- Whatever the two intervals, strict overlap of the end points is caught by the query. -/
theorem overlapOr_of_lt (r : Reservation) (a b : Int) (h1 : r.checkIn < b)
    (h2 : a < r.checkOut) : overlapOr r a b = true := by
  rw [overlapOr_iff]
  by_cases h3 : a ≤ r.checkIn
  · exact Or.inl ⟨h3, h1⟩
  · by_cases h4 : r.checkOut ≤ b
    · exact Or.inr (Or.inl ⟨h2, h4⟩)
    · exact Or.inr (Or.inr ⟨by omega, by omega⟩)

theorem overlapOr_iff_lt (r : Reservation) (a b : Int) (hab : a < b)
    (hr : r.checkIn < r.checkOut) :
    overlapOr r a b = true ↔ r.checkIn < b ∧ a < r.checkOut := by
  constructor
  · rw [overlapOr_iff]
    rintro (⟨h1, h2⟩ | ⟨h1, h2⟩ | ⟨h1, h2⟩) <;> constructor <;> omega
  · rintro ⟨h1, h2⟩
    exact overlapOr_of_lt r a b h1 h2

theorem findOne_isSome_iff {α : Type} (filter : α → Bool) (docs : List α) :
    (findOne filter docs).isSome = true ↔ ∃ d ∈ docs, filter d = true := by
  unfold findOne
  simp [List.find?_isSome]

theorem findOne_eq_none_iff {α : Type} (filter : α → Bool) (docs : List α) :
    findOne filter docs = none ↔ ∀ d ∈ docs, filter d = false := by
  unfold findOne
  simp [List.find?_eq_none]

theorem conflictFilter_iff (c a b : Int) (r : Reservation) :
    conflictFilter c a b r = true ↔ r.catwayNumber = c ∧ overlapOr r a b = true := by
  simp [conflictFilter]

theorem conflictQuery_of_fields (docs : List Reservation) (body : JsonBody)
    (also : Reservation → Bool) (c a b : Int) (hc : body.catwayNumber = some c)
    (ha : body.checkIn = some a) (hb : body.checkOut = some b) :
    conflictQuery docs body also = findOne (fun r => conflictFilter c a b r && also r) docs := by
  simp [conflictQuery, hc, ha, hb]

/-! ## C1: the conflict query of `POST /reservations` -/

/-- C1: for stored reservations with checkIn < checkOut and a candidate (c, a, b) with
a < b, the conflict query of POST /reservations finds a reservation if and only if some
stored reservation of catway c has checkIn < b and a < checkOut, that is, its half-open
interval intersects [a, b); a stored reservation whose checkOut is a, or whose checkIn is
b, is not matched by the query. -/
theorem conflictQuery_isSome_iff_intersects (docs : List Reservation) (body : JsonBody)
    (c a b : Int) (hc : body.catwayNumber = some c) (ha : body.checkIn = some a)
    (hb : body.checkOut = some b) (hab : a < b)
    (hdocs : ∀ r ∈ docs, r.checkIn < r.checkOut) :
    ((conflictQuery docs body (fun _ => true)).isSome = true ↔
        ∃ r ∈ docs, r.catwayNumber = c ∧ r.checkIn < b ∧ a < r.checkOut)
    ∧ ((conflictQuery docs body (fun _ => true)).isSome = true ↔
        ∃ r ∈ docs, r.catwayNumber = c ∧ intersects r.checkIn r.checkOut a b)
    ∧ (∀ r ∈ docs, r.checkOut = a ∨ r.checkIn = b → conflictFilter c a b r = false) := by
  have key : (conflictQuery docs body (fun _ => true)).isSome = true ↔
      ∃ r ∈ docs, r.catwayNumber = c ∧ r.checkIn < b ∧ a < r.checkOut := by
    rw [conflictQuery_of_fields docs body _ c a b hc ha hb, findOne_isSome_iff]
    constructor
    · rintro ⟨r, hr, hf⟩
      simp only [Bool.and_true, conflictFilter_iff] at hf
      exact ⟨r, hr, hf.1, (overlapOr_iff_lt r a b hab (hdocs r hr)).1 hf.2⟩
    · rintro ⟨r, hr, h1, h2⟩
      refine ⟨r, hr, ?_⟩
      simp only [Bool.and_true, conflictFilter_iff]
      exact ⟨h1, (overlapOr_iff_lt r a b hab (hdocs r hr)).2 h2⟩
  refine ⟨key, ?_, ?_⟩
  · rw [key]
    constructor
    · rintro ⟨r, hr, h1, h2⟩
      exact ⟨r, hr, h1, (intersects_iff_lt _ _ _ _ (hdocs r hr) hab).2 ⟨by omega, by omega⟩⟩
    · rintro ⟨r, hr, h1, h2⟩
      have h3 := (intersects_iff_lt _ _ _ _ (hdocs r hr) hab).1 h2
      exact ⟨r, hr, h1, by omega, by omega⟩
  · intro r hr h
    have hlt := hdocs r hr
    cases hfil : conflictFilter c a b r
    · rfl
    · exfalso
      have h2 := (overlapOr_iff_lt r a b hab hlt).1 ((conflictFilter_iff c a b r).1 hfil).2
      omega

/-- C1 at a store holding one reservation of catway 1 over [20, 25) and the candidate
[25, 30) on catway 1. -/
theorem conflictQuery_isSome_iff_intersects_witness :
    (conflictQuery [johnDoe] (bodyFor 1 25 30) (fun _ => true)).isSome = true ↔
      ∃ r ∈ [johnDoe], r.catwayNumber = 1 ∧ r.checkIn < 30 ∧ 25 < r.checkOut :=
  (conflictQuery_isSome_iff_intersects [johnDoe] (bodyFor 1 25 30) 1 25 30 rfl rfl rfl
    (by decide)
    (by intro r hr; simp only [List.mem_singleton] at hr; subst hr; decide)).1

/-! ## Lemmas on the middlewares and the chain -/

theorem validateName_eq_none_iff (key : String) (value : Option String) :
    validateName key value = none ↔
      ∃ v, value = some v ∧ 3 ≤ jsLength v ∧ jsLength v ≤ 50 := by
  cases value with
  | none => simp [validateName]
  | some v =>
    by_cases hv : v = ""
    · subst hv
      simp [validateName, jsLength]
    · simp only [validateName, hv, if_false, Option.some.injEq, exists_eq_left']
      by_cases h1 : jsLength v < 3
      · simp [h1]
      · by_cases h2 : jsLength v > 50
        · simp [h1, h2]
        · simp [h1, h2]; omega

theorem validate_eq_none_iff (b : JsonBody) :
    reservationSchema.validate b = none ↔
      ∃ c client boat checkIn checkOut,
        b.catwayNumber = some c ∧ b.clientName = some client ∧ b.boatName = some boat
        ∧ b.checkIn = some checkIn ∧ b.checkOut = some checkOut
        ∧ (3 ≤ jsLength client ∧ jsLength client ≤ 50)
        ∧ (3 ≤ jsLength boat ∧ jsLength boat ≤ 50)
        ∧ checkIn ≤ checkOut
        ∧ b.type = none ∧ b.catwayState = none ∧ b.username = none ∧ b.email = none
        ∧ b.password = none ∧ b.otherKeys = []
        ∧ isSafeInteger c = true ∧ isValidDate checkIn = true
        ∧ isValidDate checkOut = true := by
  rcases b with ⟨cn, cl, bo, ci, co, ty, cs, un, em, pw, ok⟩
  simp only [reservationSchema.validate]
  cases cn with
  | none => simp
  | some c =>
    by_cases hsafe : isSafeInteger c = true
    swap
    · simp only [hsafe, Bool.false_eq_true, if_false, reduceCtorEq, false_iff]
      rintro ⟨c1, client, boat, a, e1, hc1, -, -, -, -, -, -, -, -, -, -, -, -, -, hs, -⟩
      cases hc1
      exact hsafe hs
    simp only [hsafe, if_true]
    cases h1 : validateName "clientName" cl with
    | some e =>
      have := (validateName_eq_none_iff "clientName" cl).not.1 (by simp [h1])
      simp only [reduceCtorEq, false_iff]
      rintro ⟨c1, client, boat, a, e1, -, hcl, -, -, -, hlen, -⟩
      exact this ⟨client, hcl, hlen⟩
    | none =>
      obtain ⟨client, rfl, hclient⟩ := (validateName_eq_none_iff "clientName" cl).1 h1
      cases h2 : validateName "boatName" bo with
      | some e =>
        have := (validateName_eq_none_iff "boatName" bo).not.1 (by simp [h2])
        simp only [reduceCtorEq, false_iff]
        rintro ⟨c1, client1, boat, a, e1, -, -, hbo, -, -, -, hlen, -⟩
        exact this ⟨boat, hbo, hlen⟩
      | none =>
        obtain ⟨boat, rfl, hboat⟩ := (validateName_eq_none_iff "boatName" bo).1 h2
        cases ci with
        | none => simp
        | some a =>
          by_cases hva : isValidDate a = true
          swap
          · simp [hva]
          cases co with
          | none => simp [hva]
          | some e =>
            by_cases hve : isValidDate e = true
            swap
            · simp [hva, hve]
            by_cases hlt : e < a
            · simp [hva, hve, hlt]
            · have hle : a ≤ e := by omega
              cases ty <;> cases cs <;> cases un <;> cases em <;> cases pw <;> cases ok <;>
                simp [hva, hve, hsafe, hlt, hle, hclient, hboat, hasUnknownKey]

theorem validateReservation_of_valid (req : Request)
    (hval : reservationSchema.validate req.body = none) :
    validateReservation req = MwResult.next req := by
  simp [validateReservation, hval]

theorem postReservations_of_valid (env : Env) (req : Request) (s : Store)
    (hauth : Authenticated env req) (hval : reservationSchema.validate req.body = none) :
    postReservations env req s =
      { response := (postReservationsHandler env req s).1,
        store := (postReservationsHandler env req s).2, handlerRan := true } := by
  obtain ⟨user, hu⟩ := hauth
  have hv : validateReservation { req with user := some user } =
      MwResult.next { req with user := some user } :=
    validateReservation_of_valid _ hval
  simp only [postReservations, runChain, hu, hv]
  rfl

theorem putReservation_of_valid (env : Env) (req : Request) (s : Store)
    (hauth : Authenticated env req) (hval : reservationSchema.validate req.body = none) :
    putReservation env req s =
      { response := (putReservationHandler env req s).1,
        store := (putReservationHandler env req s).2, handlerRan := true } := by
  obtain ⟨user, hu⟩ := hauth
  have hv : validateReservation { req with user := some user } =
      MwResult.next { req with user := some user } :=
    validateReservation_of_valid _ hval
  simp only [putReservation, runChain, hu, hv]
  rfl

/-- The handler of `POST /reservations` on a body holding the five fields, the database
answering. -/
theorem postReservationsHandler_of_fields (env : Env) (req : Request) (s : Store)
    (c a b : Int) (client boat : String) (hup : env.dbUp = true)
    (hc : req.body.catwayNumber = some c) (hcl : req.body.clientName = some client)
    (hbo : req.body.boatName = some boat) (ha : req.body.checkIn = some a)
    (hb : req.body.checkOut = some b) :
    postReservationsHandler env req s =
      if (findOne (conflictFilter c a b) s.reservations).isSome then
        ({ status := 400,
           body := Body.message
             "Conflit de réservation : un catway est déjà réservé pour cette période." }, s)
      else
        ({ status := 201,
           body := Body.reservation
             { id := s.nextId, catwayNumber := c, clientName := client, boatName := boat,
               checkIn := a, checkOut := b } },
         { s with
           reservations := s.reservations ++
             [{ id := s.nextId, catwayNumber := c, clientName := client, boatName := boat,
                checkIn := a, checkOut := b }],
           nextId := s.nextId + 1 }) := by
  have hq : conflictQuery s.reservations req.body (fun _ => true) =
      findOne (conflictFilter c a b) s.reservations := by
    rw [conflictQuery_of_fields s.reservations req.body _ c a b hc ha hb]
    simp
  simp only [postReservationsHandler, hup, if_true, hq]
  cases hfind : findOne (conflictFilter c a b) s.reservations with
  | some r => simp
  | none => simp [reservationOfBody, hc, hcl, hbo, ha, hb]

/-- On intervals with ordered ends, the `$or` of the conflict query is `conflictCondition`. -/
theorem overlapOr_iff_conflictCondition (r : Reservation) (a b : Int) (hab : a ≤ b)
    (hr : r.checkIn ≤ r.checkOut) :
    overlapOr r a b = true ↔ conflictCondition a b r.checkIn r.checkOut := by
  rw [overlapOr_iff]
  unfold conflictCondition intersects
  split_ifs with h
  · simp only [max_lt_iff, lt_min_iff]
    omega
  · omega

/-- A valid body holds the five fields, with `checkIn ≤ checkOut`. -/
theorem fields_of_valid (b : JsonBody) (a e : Int)
    (hval : reservationSchema.validate b = none)
    (ha : b.checkIn = some a) (he : b.checkOut = some e) :
    a ≤ e ∧ ∃ client boat, b.clientName = some client ∧ b.boatName = some boat := by
  obtain ⟨c1, client, boat, a1, e1, h1, h2, h3, h4, h5, -, -, hle, -⟩ :=
    (validate_eq_none_iff b).1 hval
  rw [ha] at h4
  rw [he] at h5
  cases h4
  cases h5
  exact ⟨hle, client, boat, h2, h3⟩

theorem findOne_conflictFilter_none_of_ne (docs : List Reservation) (c a b : Int)
    (h : ∀ r ∈ docs, r.catwayNumber ≠ c) :
    findOne (conflictFilter c a b) docs = none := by
  rw [findOne_eq_none_iff]
  intro r hr
  simp [conflictFilter, h r hr]

theorem findOne_append_singleton_isSome {α : Type} (filter : α → Bool) (docs : List α)
    (d : α) (h : findOne filter docs = none) :
    (findOne filter (docs ++ [d])).isSome = filter d := by
  unfold findOne at h ⊢
  rw [List.find?_append, h]
  cases hf : filter d <;> simp [List.find?, hf]

/-! ## C2: two reservations on one catway -/

/-- C2, as the claim states it, fails: on an empty store, POST of a reservation of catway 1
over [5, 5) is answered 201, and the POST that follows, of catway 1 over [3, 7), is
answered 400 although the two half-open intervals have no point in common. -/
theorem postReservations_twice_counterexample :
    reservationSchema.validate (bodyFor 1 5 5) = none
    ∧ reservationSchema.validate (bodyFor 1 3 7) = none
    ∧ ¬ intersects 5 5 3 7
    ∧ (postReservations demoEnv { authorization := aliceHeader, body := bodyFor 1 5 5 }
        emptyStore).response.status = 201
    ∧ (postReservations demoEnv { authorization := aliceHeader, body := bodyFor 1 3 7 }
        (postReservations demoEnv { authorization := aliceHeader, body := bodyFor 1 5 5 }
          emptyStore).store).response.status = 400 := by
  decide

/-- C2, amended: for two valid payloads A and B on one catwayNumber, from a store with no
reservation of that catway and with the database answering, POST A is answered 201, and
POST B after it is answered 400 if the half-open intervals intersect, or if one of the two
payloads has checkOut = checkIn and the closed intervals intersect, and 201 otherwise; so
B is answered 201 when both payloads have checkIn < checkOut and the half-open intervals
are disjoint. -/
theorem postReservations_twice (env : Env) (reqA reqB : Request) (s : Store)
    (c inA outA inB outB : Int) (hup : env.dbUp = true)
    (hauthA : Authenticated env reqA) (hauthB : Authenticated env reqB)
    (hvalA : reservationSchema.validate reqA.body = none)
    (hvalB : reservationSchema.validate reqB.body = none)
    (hcA : reqA.body.catwayNumber = some c) (hinA : reqA.body.checkIn = some inA)
    (houtA : reqA.body.checkOut = some outA)
    (hcB : reqB.body.catwayNumber = some c) (hinB : reqB.body.checkIn = some inB)
    (houtB : reqB.body.checkOut = some outB)
    (hs : ∀ r ∈ s.reservations, r.catwayNumber ≠ c) :
    (postReservations env reqA s).response.status = 201
    ∧ (conflictCondition inB outB inA outA →
        (postReservations env reqB (postReservations env reqA s).store).response.status = 400)
    ∧ (¬ conflictCondition inB outB inA outA →
        (postReservations env reqB (postReservations env reqA s).store).response.status = 201)
    ∧ (intersects inA outA inB outB → conflictCondition inB outB inA outA)
    ∧ (inA < outA → inB < outB → ¬ intersects inA outA inB outB →
        ¬ conflictCondition inB outB inA outA) := by
  obtain ⟨hleA, clientA, boatA, hclA, hboA⟩ := fields_of_valid _ inA outA hvalA hinA houtA
  obtain ⟨hleB, clientB, boatB, hclB, hboB⟩ := fields_of_valid _ inB outB hvalB hinB houtB
  have hA := postReservationsHandler_of_fields env reqA s c inA outA clientA boatA hup hcA hclA
    hboA hinA houtA
  rw [findOne_conflictFilter_none_of_ne s.reservations c inA outA hs] at hA
  simp only [Option.isSome_none, Bool.false_eq_true, if_false] at hA
  rw [postReservations_of_valid env reqA s hauthA hvalA, hA]
  rw [postReservations_of_valid env reqB _ hauthB hvalB]
  rw [postReservationsHandler_of_fields env reqB _ c inB outB clientB boatB hup hcB hclB hboB
    hinB houtB]
  simp only []
  rw [findOne_append_singleton_isSome _ _ _
    (findOne_conflictFilter_none_of_ne s.reservations c inB outB hs)]
  have hcond : conflictFilter c inB outB
      { id := s.nextId, catwayNumber := c, clientName := clientA, boatName := boatA,
        checkIn := inA, checkOut := outA } = true ↔ conflictCondition inB outB inA outA := by
    rw [conflictFilter_iff]
    simp only [true_and]
    exact overlapOr_iff_conflictCondition _ inB outB hleB hleA
  refine ⟨trivial, ?_, ?_, ?_, ?_⟩
  · intro h
    rw [if_pos (hcond.2 h)]
  · intro h
    rw [if_neg (fun hf => h (hcond.1 hf))]
  · intro h
    unfold conflictCondition
    unfold intersects at h ⊢
    simp only [max_lt_iff, lt_min_iff] at h ⊢
    split_ifs <;> omega
  · intro h1 h2 h
    unfold conflictCondition
    rw [if_pos ⟨h2, h1⟩]
    unfold intersects at h ⊢
    simp only [max_lt_iff, lt_min_iff] at h ⊢
    omega

/-- C2 at the scenario of section 8: a reservation of catway 1 over [20, 25), then one
over [22, 23), which is answered 400. -/
theorem postReservations_twice_witness :
    (postReservations demoEnv { authorization := aliceHeader, body := bodyFor 1 20 25 }
        emptyStore).response.status = 201
    ∧ (conflictCondition 22 23 20 25 →
        (postReservations demoEnv { authorization := aliceHeader, body := bodyFor 1 22 23 }
          (postReservations demoEnv { authorization := aliceHeader, body := bodyFor 1 20 25 }
            emptyStore).store).response.status = 400) :=
  have h := postReservations_twice demoEnv
    { authorization := aliceHeader, body := bodyFor 1 20 25 }
    { authorization := aliceHeader, body := bodyFor 1 22 23 } emptyStore 1 20 25 22 23 rfl
    ⟨{ name := "alice", iat := 0, exp := 5 }, by decide⟩
    ⟨{ name := "alice", iat := 0, exp := 5 }, by decide⟩
    (by decide) (by decide) rfl rfl rfl rfl rfl rfl (by intro r hr; cases hr)
  ⟨h.1, h.2.1⟩

/-! ## Lemmas on the store operations -/

theorem overlapOr_of_intersects (r : Reservation) (a b : Int)
    (h : intersects r.checkIn r.checkOut a b) : overlapOr r a b = true := by
  unfold intersects at h
  simp only [max_lt_iff, lt_min_iff] at h
  exact overlapOr_of_lt r a b (by omega) (by omega)

theorem overlaps_symm (r1 r2 : Reservation) : overlaps r1 r2 ↔ overlaps r2 r1 := by
  unfold overlaps intersects
  rw [max_comm, min_comm]

theorem mem_of_findOneAndUpdate {α : Type} (filter : α → Bool) (update : α → α) :
    ∀ (docs : List α) (u : α) (docs1 : List α),
      findOneAndUpdate filter update docs = some (u, docs1) →
      ∀ r ∈ docs1, r ∈ docs ∨ ∃ d ∈ docs, r = update d := by
  intro docs
  induction docs with
  | nil => intro u docs1 h; simp [findOneAndUpdate] at h
  | cons d ds ih =>
    intro u docs1 h r hr
    unfold findOneAndUpdate at h
    by_cases hf : filter d = true
    · simp only [hf, if_true, Option.some.injEq, Prod.mk.injEq] at h
      obtain ⟨-, rfl⟩ := h
      rcases List.mem_cons.1 hr with rfl | hr
      · exact Or.inr ⟨d, List.mem_cons_self _ _, rfl⟩
      · exact Or.inl (List.mem_cons_of_mem _ hr)
    · simp only [hf, Bool.false_eq_true, if_false] at h
      cases hrec : findOneAndUpdate filter update ds with
      | none => simp [hrec] at h
      | some p =>
        obtain ⟨u1, ds1⟩ := p
        simp only [hrec, Option.some.injEq, Prod.mk.injEq] at h
        obtain ⟨-, rfl⟩ := h
        rcases List.mem_cons.1 hr with rfl | hr
        · exact Or.inl (List.mem_cons_self _ _)
        · rcases ih u1 ds1 hrec r hr with h1 | ⟨d0, hd0, rfl⟩
          · exact Or.inl (List.mem_cons_of_mem _ h1)
          · exact Or.inr ⟨d0, List.mem_cons_of_mem _ hd0, rfl⟩

theorem pairwise_findOneAndUpdate {α : Type} (R : α → α → Prop) (filter : α → Bool)
    (update : α → α) :
    ∀ (docs : List α) (u : α) (docs1 : List α),
      findOneAndUpdate filter update docs = some (u, docs1) →
      docs.Pairwise R →
      (∀ d ∈ docs, ∀ r ∈ docs, R r (update d) ∧ R (update d) r) →
      docs1.Pairwise R := by
  intro docs
  induction docs with
  | nil => intro u docs1 h; simp [findOneAndUpdate] at h
  | cons d ds ih =>
    intro u docs1 h hp hnew
    rw [List.pairwise_cons] at hp
    unfold findOneAndUpdate at h
    by_cases hf : filter d = true
    · simp only [hf, if_true, Option.some.injEq, Prod.mk.injEq] at h
      obtain ⟨-, rfl⟩ := h
      rw [List.pairwise_cons]
      exact ⟨fun r hr => (hnew d (List.mem_cons_self _ _) r (List.mem_cons_of_mem _ hr)).2,
        hp.2⟩
    · simp only [hf, Bool.false_eq_true, if_false] at h
      cases hrec : findOneAndUpdate filter update ds with
      | none => simp [hrec] at h
      | some p =>
        obtain ⟨u1, ds1⟩ := p
        simp only [hrec, Option.some.injEq, Prod.mk.injEq] at h
        obtain ⟨-, rfl⟩ := h
        rw [List.pairwise_cons]
        constructor
        · intro r hr
          rcases mem_of_findOneAndUpdate filter update ds u1 ds1 hrec r hr with h1 | ⟨d0, hd0, rfl⟩
          · exact hp.1 r h1
          · exact (hnew d0 (List.mem_cons_of_mem _ hd0) d (List.mem_cons_self _ _)).1
        · exact ih u1 ds1 hrec hp.2
            (fun d0 hd0 r hr =>
              hnew d0 (List.mem_cons_of_mem _ hd0) r (List.mem_cons_of_mem _ hr))

theorem sublist_of_findOneAndDelete {α : Type} (filter : α → Bool) :
    ∀ (docs : List α) (u : α) (docs1 : List α),
      findOneAndDelete filter docs = some (u, docs1) → docs1.Sublist docs := by
  intro docs
  induction docs with
  | nil => intro u docs1 h; simp [findOneAndDelete] at h
  | cons d ds ih =>
    intro u docs1 h
    unfold findOneAndDelete at h
    by_cases hf : filter d = true
    · simp only [hf, if_true, Option.some.injEq, Prod.mk.injEq] at h
      obtain ⟨-, rfl⟩ := h
      exact List.sublist_cons_self _ _
    · simp only [hf, Bool.false_eq_true, if_false] at h
      cases hrec : findOneAndDelete filter ds with
      | none => simp [hrec] at h
      | some p =>
        obtain ⟨u1, ds1⟩ := p
        simp only [hrec, Option.some.injEq, Prod.mk.injEq] at h
        obtain ⟨-, rfl⟩ := h
        exact (ih u1 ds1 hrec).cons₂ d

/-! ## Lemmas on the routes -/

/-- A route behind `authenticateToken` alone either answers without running its handler,
leaving the store as it is, or runs the handler on the request with `req.user` set. -/
theorem runChain_auth_cases (env : Env) (handler : Handler) (req : Request) (s : Store) :
    ((runChain [authenticateToken env] handler req s).store = s
      ∧ (runChain [authenticateToken env] handler req s).handlerRan = false)
    ∨ ∃ user, authenticateToken env req = MwResult.next { req with user := some user }
      ∧ runChain [authenticateToken env] handler req s =
        { response := (handler { req with user := some user } s).1,
          store := (handler { req with user := some user } s).2, handlerRan := true } := by
  cases hb : bearerToken req.authorization with
  | none => left; simp [runChain, authenticateToken, hb]
  | some token =>
    cases hv : env.jwt.verify token env.secret env.now with
    | none => left; simp [runChain, authenticateToken, hb, hv]
    | some user =>
      right
      exact ⟨user, by simp [authenticateToken, hb, hv],
        by simp [runChain, authenticateToken, hb, hv]⟩

/-- A route behind `authenticateToken` and `validateReservation` either answers without
running its handler, leaving the store as it is, or runs the handler on a valid body. -/
theorem runChain_auth_valid_cases (env : Env) (handler : Handler) (req : Request)
    (s : Store) :
    ((runChain [authenticateToken env, validateReservation] handler req s).store = s
      ∧ (runChain [authenticateToken env, validateReservation] handler req s).handlerRan
          = false)
    ∨ ∃ user, authenticateToken env req = MwResult.next { req with user := some user }
      ∧ reservationSchema.validate req.body = none
      ∧ runChain [authenticateToken env, validateReservation] handler req s =
        { response := (handler { req with user := some user } s).1,
          store := (handler { req with user := some user } s).2, handlerRan := true } := by
  cases hb : bearerToken req.authorization with
  | none => left; simp [runChain, authenticateToken, hb]
  | some token =>
    cases hv : env.jwt.verify token env.secret env.now with
    | none => left; simp [runChain, authenticateToken, hb, hv]
    | some user =>
      cases hval : reservationSchema.validate req.body with
      | some e => left; simp [runChain, authenticateToken, validateReservation, hb, hv, hval]
      | none =>
        right
        exact ⟨user, by simp [authenticateToken, hb, hv], rfl,
          by simp [runChain, authenticateToken, validateReservation, hb, hv, hval]⟩

theorem not_overlaps_of_findOne_none (docs : List Reservation) (c a b : Int)
    (h : findOne (conflictFilter c a b) docs = none) (r : Reservation) (hr : r ∈ docs)
    (hc : r.catwayNumber = c) (x : Reservation) (hxa : x.checkIn = a) (hxb : x.checkOut = b) :
    ¬ overlaps r x ∧ ¬ overlaps x r := by
  have hf := (findOne_eq_none_iff _ _).1 h r hr
  have hno : ¬ overlaps r x := by
    intro ho
    unfold overlaps at ho
    rw [hxa, hxb] at ho
    have := overlapOr_of_intersects r a b ho
    simp [conflictFilter, hc, this] at hf
  exact ⟨hno, fun ho => hno ((overlaps_symm x r).1 ho)⟩

theorem postReservationsHandler_nonOverlap (env : Env) (req : Request) (s : Store)
    (hval : reservationSchema.validate req.body = none) (h : NonOverlap s.reservations) :
    NonOverlap (postReservationsHandler env req s).2.reservations := by
  obtain ⟨c, client, boat, a, b, hc, hcl, hbo, ha, hb, -⟩ := (validate_eq_none_iff _).1 hval
  cases hup : env.dbUp with
  | false => simpa [postReservationsHandler, hup] using h
  | true =>
    rw [postReservationsHandler_of_fields env req s c a b client boat hup hc hcl hbo ha hb]
    cases hfind : findOne (conflictFilter c a b) s.reservations with
    | some r => simpa using h
    | none =>
      simp only [Option.isSome_none, Bool.false_eq_true, if_false]
      unfold NonOverlap at h ⊢
      rw [List.pairwise_append]
      refine ⟨h, List.pairwise_singleton _ _, ?_⟩
      intro r hr x hx hcat
      rw [List.mem_singleton] at hx
      subst hx
      exact (not_overlaps_of_findOne_none _ c a b hfind r hr hcat _ rfl rfl).1

theorem putReservationHandler_nonOverlap (env : Env) (req : Request) (s : Store)
    (hval : reservationSchema.validate req.body = none) (h : NonOverlap s.reservations) :
    NonOverlap (putReservationHandler env req s).2.reservations := by
  obtain ⟨c, client, boat, a, b, hc, hcl, hbo, ha, hb, -⟩ := (validate_eq_none_iff _).1 hval
  cases hup : env.dbUp with
  | false => simpa [putReservationHandler, hup] using h
  | true =>
    have hq : conflictQuery s.reservations req.body
        (fun r => decide (some r.id ≠ putReservationParamsId)) =
        findOne (conflictFilter c a b) s.reservations := by
      rw [conflictQuery_of_fields s.reservations req.body _ c a b hc ha hb]
      simp [putReservationParamsId]
    simp only [putReservationHandler, hup, if_true, hq]
    cases hfind : findOne (conflictFilter c a b) s.reservations with
    | some r => simpa using h
    | none =>
      cases hparam : req.param with
      | notNumber raw => simpa using h
      | number n =>
        simp only []
        cases hupd : findOneAndUpdate (fun r => decide (r.catwayNumber = n))
            (updateReservation req.body) s.reservations with
        | none => simpa using h
        | some p =>
          obtain ⟨u, docs⟩ := p
          simp only []
          refine pairwise_findOneAndUpdate _ _ _ _ u docs hupd h ?_
          intro d _ r hr
          have hcat : (updateReservation req.body d).catwayNumber = c := by
            simp [updateReservation, hc]
          have hin : (updateReservation req.body d).checkIn = a := by
            simp [updateReservation, ha]
          have hout : (updateReservation req.body d).checkOut = b := by
            simp [updateReservation, hb]
          constructor
          · intro hrc
            exact (not_overlaps_of_findOne_none _ c a b hfind r hr (hrc.trans hcat) _ hin hout).1
          · intro hrc
            exact (not_overlaps_of_findOne_none _ c a b hfind r hr (hrc.symm.trans hcat) _ hin
              hout).2

theorem deleteReservationHandler_nonOverlap (env : Env) (req : Request) (s : Store)
    (h : NonOverlap s.reservations) :
    NonOverlap (deleteReservationHandler env req s).2.reservations := by
  cases hup : env.dbUp with
  | false => simpa [deleteReservationHandler, hup] using h
  | true =>
    simp only [deleteReservationHandler, hup, if_true]
    cases hparam : req.param with
    | notNumber raw => simpa using h
    | number n =>
      simp only []
      cases hdel : findOneAndDelete (fun r => decide (r.catwayNumber = n)) s.reservations with
      | none => simpa using h
      | some p =>
        obtain ⟨u, docs⟩ := p
        simp only []
        exact List.Pairwise.sublist (sublist_of_findOneAndDelete _ _ u docs hdel) h

/-! ## C3: reservation non-overlap is preserved -/

/-- C3: from a store in which no two reservations of one catwayNumber have overlapping
[checkIn, checkOut) intervals, a request POST /reservations, PUT /reservations/:catwayNumber
or DELETE /reservations/:catwayNumber, whatever its header, path parameter and body, leaves
a store with the same property. -/
theorem nonOverlap_preserved (env : Env) (req : Request) (s : Store)
    (h : NonOverlap s.reservations) :
    NonOverlap (postReservations env req s).store.reservations
    ∧ NonOverlap (putReservation env req s).store.reservations
    ∧ NonOverlap (deleteReservation env req s).store.reservations := by
  refine ⟨?_, ?_, ?_⟩
  · unfold postReservations
    rcases runChain_auth_valid_cases env (postReservationsHandler env) req s with
      ⟨hs, -⟩ | ⟨user, -, hval, hrun⟩
    · rw [hs]; exact h
    · rw [hrun]
      exact postReservationsHandler_nonOverlap env { req with user := some user } s hval h
  · unfold putReservation
    rcases runChain_auth_valid_cases env (putReservationHandler env) req s with
      ⟨hs, -⟩ | ⟨user, -, hval, hrun⟩
    · rw [hs]; exact h
    · rw [hrun]
      exact putReservationHandler_nonOverlap env { req with user := some user } s hval h
  · unfold deleteReservation
    rcases runChain_auth_cases env (deleteReservationHandler env) req s with
      ⟨hs, -⟩ | ⟨user, -, hrun⟩
    · rw [hs]; exact h
    · rw [hrun]
      exact deleteReservationHandler_nonOverlap env { req with user := some user } s h

/-- C3 at a store holding the reservation of catway 1 over [20, 25) and the request to
add one over [25, 30). -/
theorem nonOverlap_preserved_witness :
    NonOverlap
      (postReservations demoEnv { authorization := aliceHeader, body := bodyFor 1 25 30 }
        { emptyStore with reservations := [johnDoe], nextId := 1 }).store.reservations :=
  (nonOverlap_preserved demoEnv { authorization := aliceHeader, body := bodyFor 1 25 30 }
    { emptyStore with reservations := [johnDoe], nextId := 1 }
    (List.pairwise_singleton _ _)).1

/-! ## C4: a body with checkOut before checkIn -/

theorem validate_isSome_of_reversed (b : JsonBody) (checkIn checkOut : Int)
    (ha : b.checkIn = some checkIn) (hb : b.checkOut = some checkOut)
    (hlt : checkOut < checkIn) : ∃ e, reservationSchema.validate b = some e := by
  cases hval : reservationSchema.validate b with
  | some e => exact ⟨e, rfl⟩
  | none =>
    exfalso
    obtain ⟨hle, -⟩ := fields_of_valid b checkIn checkOut hval ha hb
    omega

/-- C4: for an authenticated POST /reservations or PUT /reservations/:catwayNumber whose
body has checkOut earlier than checkIn, on any store, the response is 400 with message
'Validation error', the route handler is not run (whatever the handler behind the two
middlewares, the outcome is the same) and the store is unchanged. -/
theorem reversed_dates_rejected (env : Env) (req : Request) (s : Store)
    (checkIn checkOut : Int) (hauth : Authenticated env req)
    (ha : req.body.checkIn = some checkIn) (hb : req.body.checkOut = some checkOut)
    (hlt : checkOut < checkIn) :
    ∃ details,
      (∀ handler : Handler,
        runChain [authenticateToken env, validateReservation] handler req s =
          { response := { status := 400, body := Body.validationError "Validation error" details },
            store := s, handlerRan := false })
      ∧ postReservations env req s =
          { response := { status := 400, body := Body.validationError "Validation error" details },
            store := s, handlerRan := false }
      ∧ putReservation env req s =
          { response := { status := 400, body := Body.validationError "Validation error" details },
            store := s, handlerRan := false } := by
  obtain ⟨user, hu⟩ := hauth
  obtain ⟨e, he⟩ := validate_isSome_of_reversed req.body checkIn checkOut ha hb hlt
  have key : ∀ handler : Handler,
      runChain [authenticateToken env, validateReservation] handler req s =
        { response := { status := 400, body := Body.validationError "Validation error" [e] },
          store := s, handlerRan := false } := by
    intro handler
    simp [runChain, hu, validateReservation, he]
  exact ⟨[e], key, key _, key _⟩

/-- C4 at a request for catway 1 from day 25 to day 20. -/
theorem reversed_dates_rejected_witness :
    ∃ details,
      (∀ handler : Handler,
        runChain [authenticateToken demoEnv, validateReservation] handler
            { authorization := aliceHeader, body := bodyFor 1 25 20 } emptyStore =
          { response := { status := 400, body := Body.validationError "Validation error" details },
            store := emptyStore, handlerRan := false })
      ∧ postReservations demoEnv { authorization := aliceHeader, body := bodyFor 1 25 20 }
            emptyStore =
          { response := { status := 400, body := Body.validationError "Validation error" details },
            store := emptyStore, handlerRan := false }
      ∧ putReservation demoEnv { authorization := aliceHeader, body := bodyFor 1 25 20 }
            emptyStore =
          { response := { status := 400, body := Body.validationError "Validation error" details },
            store := emptyStore, handlerRan := false } :=
  reversed_dates_rejected demoEnv { authorization := aliceHeader, body := bodyFor 1 25 20 }
    emptyStore 25 20 ⟨{ name := "alice", iat := 0, exp := 5 }, by decide⟩ rfl rfl (by decide)

/-! ## C5: what `validateReservation` accepts -/

/-- The length of a JavaScript string is its number of characters plus its number of
characters outside the basic plane, which take two code units. -/
theorem jsLength_eq (s : String) :
    jsLength s = s.length + (s.data.filter (fun ch => decide (65536 ≤ ch.toNat))).length := by
  rcases s with ⟨l⟩
  show (l.map (fun c => if c.toNat < 65536 then 1 else 2)).sum
    = l.length + (l.filter (fun ch => decide (65536 ≤ ch.toNat))).length
  induction l with
  | nil => rfl
  | cons c cs ih =>
    by_cases hc : c.toNat < 65536
    · have hc2 : ¬ 65536 ≤ c.toNat := by omega
      simp only [List.map_cons, List.sum_cons, hc, if_true, List.length_cons,
        List.filter_cons, hc2, decide_False, Bool.false_eq_true, if_false, ih]
      omega
    · have hc2 : 65536 ≤ c.toNat := by omega
      simp only [List.map_cons, List.sum_cons, hc, if_false, List.length_cons,
        List.filter_cons, hc2, decide_True, if_true, ih]
      omega

/-- C5, as the claim states it, fails: the payload holds the five fields only, its
catwayNumber is the integer 2^53, its names have 3 and 8 characters and its checkOut is not
before its checkIn, yet `validateReservation` answers 400 and does not call next. -/
theorem validateReservation_accepts_counterexample :
    ((3 ≤ jsLength "Ann" ∧ jsLength "Ann" ≤ 50)
      ∧ (3 ≤ jsLength "Albatros" ∧ jsLength "Albatros" ≤ 50) ∧ (20 : Int) ≤ 20)
    ∧ validateReservation { body := namedBody 9007199254740992 "Ann" "Albatros" } =
      MwResult.respond
        { status := 400,
          body := Body.validationError "Validation error"
            [ValidationDetail.numberUnsafe "catwayNumber"] } := by
  decide

/-- C5, amended: on a payload whose only fields are catwayNumber, an integer from
-(2^53 - 1) to 2^53 - 1, clientName, boatName, and checkIn and checkOut, dates within
8.64e15 milliseconds of the epoch, `validateReservation` calls next if and only if
clientName and boatName have between 3 and 50 characters (UTF-16 code units) and checkOut is
not before checkIn; a payload whose catwayNumber or dates are outside these ranges, or in
which one of the five fields is absent, is answered 400 without a call of next. -/
theorem validateReservation_accepts_iff (req : Request) :
    (∀ (c : Int) (client boat : String) (checkIn checkOut : Int),
      req.body = { catwayNumber := some c, clientName := some client, boatName := some boat,
                   checkIn := some checkIn, checkOut := some checkOut } →
      isSafeInteger c = true → isValidDate checkIn = true → isValidDate checkOut = true →
      (validateReservation req = MwResult.next req ↔
        (3 ≤ jsLength client ∧ jsLength client ≤ 50) ∧ (3 ≤ jsLength boat ∧ jsLength boat ≤ 50)
          ∧ checkIn ≤ checkOut))
    ∧ (∀ (c : Int) (client boat : String) (checkIn checkOut : Int),
      req.body = { catwayNumber := some c, clientName := some client, boatName := some boat,
                   checkIn := some checkIn, checkOut := some checkOut } →
      isSafeInteger c = false ∨ isValidDate checkIn = false ∨ isValidDate checkOut = false →
      ∃ details, validateReservation req =
        MwResult.respond
          { status := 400, body := Body.validationError "Validation error" details })
    ∧ (req.body.catwayNumber = none ∨ req.body.clientName = none ∨ req.body.boatName = none
        ∨ req.body.checkIn = none ∨ req.body.checkOut = none →
      ∃ details, validateReservation req =
        MwResult.respond
          { status := 400, body := Body.validationError "Validation error" details })
    ∧ (∀ name : String,
        jsLength name
          = name.length + (name.data.filter (fun ch => decide (65536 ≤ ch.toNat))).length) := by
  have hnext : validateReservation req = MwResult.next req ↔
      reservationSchema.validate req.body = none := by
    unfold validateReservation
    cases reservationSchema.validate req.body <;> simp
  have hresp : reservationSchema.validate req.body ≠ none →
      ∃ details, validateReservation req =
        MwResult.respond
          { status := 400, body := Body.validationError "Validation error" details } := by
    intro hne
    cases hval : reservationSchema.validate req.body with
    | some e => exact ⟨[e], by simp [validateReservation, hval]⟩
    | none => exact absurd hval hne
  refine ⟨?_, ?_, ?_, jsLength_eq⟩
  · intro c client boat checkIn checkOut hbody hsafe hva hve
    rw [hnext, validate_eq_none_iff, hbody]
    constructor
    · rintro ⟨c1, client1, boat1, a1, e1, -, h2, h3, h4, h5, hcl, hbo, hle, -⟩
      simp only [Option.some.injEq] at h2 h3 h4 h5
      subst h2 h3 h4 h5
      exact ⟨hcl, hbo, hle⟩
    · rintro ⟨hcl, hbo, hle⟩
      exact ⟨c, client, boat, checkIn, checkOut, rfl, rfl, rfl, rfl, rfl, hcl, hbo, hle, rfl,
        rfl, rfl, rfl, rfl, rfl, hsafe, hva, hve⟩
  · intro c client boat checkIn checkOut hbody hout
    apply hresp
    intro hval
    obtain ⟨c1, client1, boat1, a1, e1, h1, -, -, h4, h5, -, -, -, -, -, -, -, -, -, hs, ha,
      he⟩ := (validate_eq_none_iff _).1 hval
    rw [hbody] at h1 h4 h5
    simp only [Option.some.injEq] at h1 h4 h5
    subst h1 h4 h5
    rcases hout with h | h | h
    · rw [h] at hs; cases hs
    · rw [h] at ha; cases ha
    · rw [h] at he; cases he
  · intro habs
    apply hresp
    intro hval
    obtain ⟨c, client, boat, a, e, h1, h2, h3, h4, h5, -⟩ := (validate_eq_none_iff _).1 hval
    simp [h1, h2, h3, h4, h5] at habs

/-- C5 at payloads on the bounds: names of 3 and of 50 characters with checkOut equal to
checkIn are passed on, a clientName of 2 characters is not, and neither is a boatName of 51
characters. -/
theorem validateReservation_accepts_iff_witness :
    validateReservation { body := namedBody 1 "Ann" fiftyChars } =
      MwResult.next { body := namedBody 1 "Ann" fiftyChars }
    ∧ validateReservation { body := namedBody 1 "An" fiftyChars } ≠
      MwResult.next { body := namedBody 1 "An" fiftyChars }
    ∧ validateReservation { body := namedBody 1 "Ann" (fiftyChars ++ "1") } ≠
      MwResult.next { body := namedBody 1 "Ann" (fiftyChars ++ "1") } :=
  ⟨((validateReservation_accepts_iff { body := namedBody 1 "Ann" fiftyChars }).1
      1 "Ann" fiftyChars 20 20 rfl (by decide) (by decide) (by decide)).2 (by decide),
    fun h => absurd
      (((validateReservation_accepts_iff { body := namedBody 1 "An" fiftyChars }).1
        1 "An" fiftyChars 20 20 rfl (by decide) (by decide) (by decide)).1 h) (by decide),
    fun h => absurd
      (((validateReservation_accepts_iff { body := namedBody 1 "Ann" (fiftyChars ++ "1") }).1
        1 "Ann" (fiftyChars ++ "1") 20 20 rfl (by decide) (by decide) (by decide)).1 h)
      (by decide)⟩

/-! ## C6 and C7: the routes behind `authenticateToken` -/

theorem authenticateToken_of_no_header (env : Env) (req : Request)
    (h : req.authorization = none) :
    authenticateToken env req =
      MwResult.respond
        { status := 401, body := Body.message "Accès refusé : Token manquant." } := by
  simp [authenticateToken, bearerToken, h]

/-- What `authenticateToken` does: it answers 401, or it answers 403, or it sets `req.user`
and calls next. -/
theorem authenticateToken_cases (env : Env) (req : Request) :
    authenticateToken env req =
        MwResult.respond
          { status := 401, body := Body.message "Accès refusé : Token manquant." }
    ∨ authenticateToken env req =
        MwResult.respond { status := 403, body := Body.message "Token invalide." }
    ∨ Authenticated env req := by
  unfold Authenticated
  cases hb : bearerToken req.authorization with
  | none => left; simp [authenticateToken, hb]
  | some token =>
    cases hv : env.jwt.verify token env.secret env.now with
    | none => right; left; simp [authenticateToken, hb, hv]
    | some user => right; right; exact ⟨user, by simp [authenticateToken, hb, hv]⟩

/-- In every registered route that has `authenticateToken`, it is the first middleware. -/
theorem routes_guard_first :
    ∀ r ∈ routes, Mw.authenticateToken ∈ r.middlewares →
      r.middlewares.head? = some Mw.authenticateToken := by
  decide

theorem run_of_head_authenticateToken (r : Route) (env : Env) (handler : Handler)
    (req : Request) (s : Store) (res : Response)
    (hhead : r.middlewares.head? = some Mw.authenticateToken)
    (hres : authenticateToken env req = MwResult.respond res) :
    r.run env handler req s = { response := res, store := s, handlerRan := false } := by
  unfold Route.run
  cases hm : r.middlewares with
  | nil => simp [hm] at hhead
  | cons m rest =>
    simp only [hm, List.head?_cons, Option.some.injEq] at hhead
    subst hhead
    simp [runChain, mwOf, hres]

/-- C6: a request without an Authorization header, to any registered route that has
`authenticateToken`, whatever the body, the path parameter, the store and the handler of
the route, is answered 401, the handler is not invoked and the store is unchanged; so is
it by any chain of middlewares that begins with `authenticateToken`. -/
theorem no_header_unauthorized (env : Env) (r : Route) (handler : Handler) (req : Request)
    (s : Store) (hr : r ∈ routes) (hguard : Mw.authenticateToken ∈ r.middlewares)
    (hreq : req.authorization = none) :
    r.run env handler req s =
      { response := { status := 401, body := Body.message "Accès refusé : Token manquant." },
        store := s, handlerRan := false }
    ∧ ∀ rest : List (Request → MwResult),
      runChain (authenticateToken env :: rest) handler req s =
        { response := { status := 401, body := Body.message "Accès refusé : Token manquant." },
          store := s, handlerRan := false } := by
  refine ⟨run_of_head_authenticateToken r env handler req s _ (routes_guard_first r hr hguard)
    (authenticateToken_of_no_header env req hreq), ?_⟩
  intro rest
  simp [runChain, authenticateToken_of_no_header env req hreq]

/-- C6 at the route `PUT /reservations/:catwayNumber` and a request with a body and no
header. -/
theorem no_header_unauthorized_witness :
    Route.run
        { method := some Method.PUT, path := [Seg.lit "reservations", Seg.param "catwayNumber"],
          middlewares := [Mw.authenticateToken, Mw.validateReservation],
          handler := HandlerId.putReservation }
        demoEnv (putReservationHandler demoEnv)
        { param := PathParam.number 1, body := bodyFor 1 20 25 }
        { emptyStore with reservations := [johnDoe], nextId := 1 } =
      { response := { status := 401, body := Body.message "Accès refusé : Token manquant." },
        store := { emptyStore with reservations := [johnDoe], nextId := 1 },
        handlerRan := false } :=
  (no_header_unauthorized demoEnv _ _ _ _ (by decide) (by decide) rfl).1

/-! ## C7: which routes stand behind `authenticateToken` -/

/-- C7, as the claim states it, fails: `GET /test-models` is registered, is none of account
creation, login, root page and login page, and has no `authenticateToken`; a request
without a header reaches its handler. -/
theorem routes_guard_counterexample :
    testModelsRoute ∈ routes
    ∧ testModelsRoute.handler ∉ openHandlers
    ∧ Mw.authenticateToken ∉ testModelsRoute.middlewares
    ∧ ∀ handler : Handler,
        (testModelsRoute.run demoEnv handler { authorization := none } emptyStore).handlerRan
          = true :=
  ⟨by decide, by decide, by decide, fun _ => rfl⟩

/-- C7, amended: every registered route other than account creation, login, the root and
login pages, the test route `/test-models` and the documentation mounted at `/api-docs` has
`authenticateToken` as its first middleware, so a request to it that does not pass
`authenticateToken` is answered 401 or 403 without reaching the handler, the store
unchanged. -/
theorem routes_guarded (r : Route) (hr : r ∈ routes) (hopen : r.handler ∉ unguardedHandlers) :
    r.middlewares.head? = some Mw.authenticateToken
    ∧ ∀ (env : Env) (handler : Handler) (req : Request) (s : Store),
        ¬ Authenticated env req →
        (r.run env handler req s).handlerRan = false
        ∧ (r.run env handler req s).store = s
        ∧ ((r.run env handler req s).response.status = 401
            ∨ (r.run env handler req s).response.status = 403) := by
  have hhead : r.middlewares.head? = some Mw.authenticateToken := by
    revert r
    decide
  refine ⟨hhead, ?_⟩
  intro env handler req s hna
  rcases authenticateToken_cases env req with h | h | h
  · rw [run_of_head_authenticateToken r env handler req s _ hhead h]
    exact ⟨rfl, rfl, Or.inl rfl⟩
  · rw [run_of_head_authenticateToken r env handler req s _ hhead h]
    exact ⟨rfl, rfl, Or.inr rfl⟩
  · exact absurd h hna

/-- C7 at the route `GET /catways` and a request whose token does not verify. -/
theorem routes_guarded_witness :
    (Route.run
      { method := some Method.GET, path := [Seg.lit "catways"],
        middlewares := [Mw.authenticateToken], handler := HandlerId.getCatways }
      demoEnv (getCatwaysHandler demoEnv) { authorization := some "Bearer nothing" }
      emptyStore).handlerRan = false :=
  ((routes_guarded _ (by decide) (by decide)).2 demoEnv (getCatwaysHandler demoEnv)
    { authorization := some "Bearer nothing" } emptyStore
    (by
      rintro ⟨user, hu⟩
      have h403 : authenticateToken demoEnv { authorization := some "Bearer nothing" } =
          MwResult.respond { status := 403, body := Body.message "Token invalide." } := by
        decide
      rw [h403] at hu
      cases hu)).1

/-! ## Lemmas on tokens -/

theorem splitOn_of_not_mem (sep : Char) :
    ∀ l : List Char, sep ∉ l → splitOn sep l = [l] := by
  intro l
  induction l with
  | nil => intro _; rfl
  | cons c cs ih =>
    intro h
    have hc : c ≠ sep := fun hc => h (hc ▸ List.mem_cons_self _ _)
    have hcs : sep ∉ cs := fun hm => h (List.mem_cons_of_mem _ hm)
    simp [splitOn, hc, ih hcs]

/-- The header `Bearer <token>` yields the token, when the token is not empty and holds no
space. -/
theorem bearerToken_bearer (token : String) (hne : token.data ≠ [])
    (hsp : ' ' ∉ token.data) : bearerToken (some ("Bearer " ++ token)) = some token := by
  have hdata : ("Bearer " ++ token).data = 'B' :: 'e' :: 'a' :: 'r' :: 'e' :: 'r' :: ' ' :: token.data := by
    rw [String.data_append]
    rfl
  have hnonempty : ("Bearer " ++ token) ≠ "" := by
    intro h
    have := congrArg String.data h
    rw [hdata] at this
    cases this
  have hsplit : splitOn ' ' ("Bearer " ++ token).data =
      ['B' :: 'e' :: 'a' :: 'r' :: 'e' :: 'r' :: [], token.data] := by
    rw [hdata]
    simp [splitOn, splitOn_of_not_mem ' ' token.data hsp]
  unfold bearerToken
  simp only [hnonempty, if_false]
  rw [hsplit]
  simp [hne]

theorem toyDecodeName_encode (l : List Char) : toyDecodeName false (toyEncodeName l) = l := by
  induction l with
  | nil => rfl
  | cons c cs ih =>
    unfold toyEncodeName
    by_cases h1 : c = ' '
    · simp [h1, toyDecodeName, ih]
    · by_cases h2 : c = '_'
      · simp [h2, toyDecodeName, ih]
      · simp [h1, h2, toyDecodeName, ih]

theorem space_not_mem_toyEncodeName (l : List Char) : ' ' ∉ toyEncodeName l := by
  induction l with
  | nil => simp [toyEncodeName]
  | cons c cs ih =>
    unfold toyEncodeName
    by_cases h1 : c = ' '
    · simp [h1, ih]
    · by_cases h2 : c = '_'
      · simp [h2, ih]
      · simp [h1, h2, ih]
        exact fun h => h1 h.symm

theorem takeWhile_replicate_append (p : Char → Bool) (a : Char) (n : Nat) (l : List Char)
    (ha : p a = true) :
    (List.replicate n a ++ l).takeWhile p = List.replicate n a ++ l.takeWhile p := by
  induction n with
  | zero => simp
  | succ n ih => simp [List.replicate_succ, List.takeWhile_cons, ha, ih]

theorem dropWhile_replicate_append (p : Char → Bool) (a : Char) (n : Nat) (l : List Char)
    (ha : p a = true) :
    (List.replicate n a ++ l).dropWhile p = l.dropWhile p := by
  induction n with
  | zero => simp
  | succ n ih => simp [List.replicate_succ, List.dropWhile_cons, ha, ih]

theorem toyJwt_verify_sign (name secret : String) (iat ttl now : Nat) :
    toyJwt.verify (toyJwt.sign name secret iat ttl) secret now =
      if now < iat + ttl then some { name := name, iat := iat, exp := iat + ttl } else none := by
  have hrest1 : (List.replicate ttl 't' ++ '.' :: toyEncodeName name.data).takeWhile
      (fun c => decide (c = 'i')) = [] := by
    cases ttl <;> simp [List.replicate_succ]
  have hrest2 : (List.replicate ttl 't' ++ '.' :: toyEncodeName name.data).dropWhile
      (fun c => decide (c = 'i')) = List.replicate ttl 't' ++ '.' :: toyEncodeName name.data := by
    cases ttl <;> simp [List.replicate_succ]
  have h1 : (List.replicate iat 'i' ++ (List.replicate ttl 't' ++ '.' :: toyEncodeName name.data)).takeWhile
      (fun c => decide (c = 'i')) = List.replicate iat 'i' := by
    rw [takeWhile_replicate_append _ _ _ _ (by simp), hrest1, List.append_nil]
  have h2 : (List.replicate iat 'i' ++ (List.replicate ttl 't' ++ '.' :: toyEncodeName name.data)).dropWhile
      (fun c => decide (c = 'i')) = List.replicate ttl 't' ++ '.' :: toyEncodeName name.data := by
    rw [dropWhile_replicate_append _ _ _ _ (by simp), hrest2]
  have h3 : (List.replicate ttl 't' ++ '.' :: toyEncodeName name.data).takeWhile
      (fun c => decide (c = 't')) = List.replicate ttl 't' := by
    rw [takeWhile_replicate_append _ _ _ _ (by simp)]
    simp
  have h4 : (List.replicate ttl 't' ++ '.' :: toyEncodeName name.data).dropWhile
      (fun c => decide (c = 't')) = '.' :: toyEncodeName name.data := by
    rw [dropWhile_replicate_append _ _ _ _ (by simp)]
    simp
  simp only [toyJwt, h1, h2, h3, h4, List.length_replicate, toyDecodeName_encode, true_and]

theorem toyJwt_lawful : toyJwt.Lawful := by
  refine ⟨fun name secret iat ttl now => toyJwt_verify_sign name secret iat ttl now, ?_⟩
  intro name secret iat ttl
  constructor
  · simp [toyJwt]
  · simp only [toyJwt, List.mem_append, List.mem_cons, not_or]
    refine ⟨?_, ?_, by decide, space_not_mem_toyEncodeName _⟩
    · intro h; have := List.eq_of_mem_replicate h; revert this; decide
    · intro h; have := List.eq_of_mem_replicate h; revert this; decide

/-! ## C8: `POST /login` -/

/-- C8: the code at two failing inputs.  `POST /login` is handed to the handler registered
first, which reads the username only: for a name no user record has, on an empty store, it
answers 200 with an accessToken where the claim says 404, and for alice with a password
that does not match her hash it answers 200 where the claim says 403.  The handler
registered second, which the first one shadows, is written to answer 404 and 403 on the same
inputs; as the file runs it, its names unbound, it would answer 500. -/
theorem login_ignores_credential_store :
    matchRoute Method.POST ["login"] =
      some { method := some Method.POST, path := [Seg.lit "login"], middlewares := [],
             handler := HandlerId.login }
    ∧ (postLogin demoEnv ghostLogin emptyStore).response =
        { status := 200, body := Body.accessToken (toyJwt.sign "ghost" "secret" 2 3600) }
    ∧ (postLogin demoEnv aliceWrongLogin aliceStore).response =
        { status := 200, body := Body.accessToken (toyJwt.sign "alice" "secret" 2 3600) }
    ∧ (loginCheckedHandler demoEnv ghostLogin emptyStore).1.status = 404
    ∧ (loginCheckedHandler demoEnv aliceWrongLogin aliceStore).1.status = 403
    ∧ (loginCheckedAsRegistered ghostLogin emptyStore).1.status = 500
    ∧ (loginCheckedAsRegistered aliceWrongLogin aliceStore).1.status = 500 := by
  refine ⟨by decide, ?_, ?_, by decide, by decide, rfl, rfl⟩
  · simp [postLogin, runChain, loginHandler, ghostLogin, demoEnv]
  · simp [postLogin, runChain, loginHandler, aliceWrongLogin, demoEnv]

/-! ## C9: the token of `/login` through `authenticateToken` -/

/-- C9: with `jsonwebtoken` a lawful sign-with-expiry and verify, POST /login with a
non-empty username U returns an accessToken, and the accessToken it returns for U,
presented as `Bearer <token>` less than 3600 seconds after it was issued, makes
`authenticateToken` call next with `req.user.name` equal to U; presented 3600 seconds after
it was issued or later, it is answered 403 and next is not called. -/
theorem login_token_roundtrip (env : Env) (hlaw : env.jwt.Lawful) (U : String)
    (req : Request) (s : Store) (hreq : req.body.username = some U) :
    (U ≠ "" →
      (postLogin env req s).response =
        { status := 200, body := Body.accessToken (env.jwt.sign U env.secret env.now 3600) })
    ∧ ∀ token, (postLogin env req s).response.body = Body.accessToken token →
        ∀ (later : Nat) (req2 : Request), req2.authorization = some ("Bearer " ++ token) →
          (later < env.now + 3600 →
            authenticateToken { env with now := later } req2 =
              MwResult.next
                { req2 with
                  user := some { name := U, iat := env.now, exp := env.now + 3600 } })
          ∧ (env.now + 3600 ≤ later →
            authenticateToken { env with now := later } req2 =
              MwResult.respond { status := 403, body := Body.message "Token invalide." }) := by
  constructor
  · intro hU
    simp [postLogin, runChain, loginHandler, hreq, hU]
  · intro token htoken later req2 hreq2
    have htok : U ≠ "" ∧ token = env.jwt.sign U env.secret env.now 3600 := by
      by_cases hU : U = ""
      · simp [postLogin, runChain, loginHandler, hreq, hU] at htoken
      · simp [postLogin, runChain, loginHandler, hreq, hU] at htoken
        exact ⟨hU, htoken.symm⟩
    obtain ⟨-, rfl⟩ := htok
    obtain ⟨hverify, hshape⟩ := hlaw
    obtain ⟨hne, hsp⟩ := hshape U env.secret env.now 3600
    have hbearer := bearerToken_bearer _ hne hsp
    constructor
    · intro hlt
      simp [authenticateToken, hreq2, hbearer, hverify, hlt]
    · intro hle
      have hnlt : ¬ later < env.now + 3600 := by omega
      simp [authenticateToken, hreq2, hbearer, hverify, hnlt]

/-- C9 at the token `/login` returns for alice at time 2, presented at time 100. -/
theorem login_token_roundtrip_witness :
    authenticateToken { demoEnv with now := 100 }
        { authorization := some ("Bearer " ++ toyJwt.sign "alice" "secret" 2 3600) } =
      MwResult.next
        { authorization := some ("Bearer " ++ toyJwt.sign "alice" "secret" 2 3600),
          user := some { name := "alice", iat := 2, exp := 2 + 3600 } } :=
  ((login_token_roundtrip demoEnv toyJwt_lawful "alice" aliceLogin emptyStore rfl).2
    (toyJwt.sign "alice" "secret" 2 3600)
    (by simp [postLogin, runChain, loginHandler, aliceLogin, demoEnv])
    100 { authorization := some ("Bearer " ++ toyJwt.sign "alice" "secret" 2 3600) } rfl).1
    (by decide)

/-! ## C10: a catway created, then read -/

theorem runChain_auth_of_authenticated (env : Env) (handler : Handler) (req : Request)
    (s : Store) (user : JwtPayload)
    (hu : authenticateToken env req = MwResult.next { req with user := some user }) :
    runChain [authenticateToken env] handler req s =
      { response := (handler { req with user := some user } s).1,
        store := (handler { req with user := some user } s).2, handlerRan := true } := by
  simp [runChain, hu]

theorem findOne_append_singleton_of_none {α : Type} (filter : α → Bool) (docs : List α)
    (d : α) (h : findOne filter docs = none) (hd : filter d = true) :
    findOne filter (docs ++ [d]) = some d := by
  unfold findOne at h ⊢
  rw [List.find?_append, h]
  simp [List.find?, hd]

/-- What the two handlers do in general: for a body holding catwayNumber n, type t and
catwayState st and a store holding no catway numbered n, the database answering, an
authenticated POST /catways is answered 201 with the catway (n, t, st) as JSON, and an
authenticated GET /catways/n issued afterwards is answered 200 with the HTML page that
shows n, t and st. -/
theorem catway_create_read (env : Env) (req req2 : Request) (s : Store) (n : Int)
    (t st : String) (hup : env.dbUp = true) (hauth : Authenticated env req)
    (hauth2 : Authenticated env req2) (hn : req.body.catwayNumber = some n)
    (ht : req.body.type = some t) (hst : req.body.catwayState = some st)
    (hs : ∀ c ∈ s.catways, c.catwayNumber ≠ n) (hparam : req2.param = PathParam.number n) :
    (postCatways env req s).response =
      { status := 201, body := Body.catway { catwayNumber := n, type := t, catwayState := st } }
    ∧ (postCatways env req s).handlerRan = true
    ∧ (getCatway env req2 (postCatways env req s).store).response =
      { status := 200,
        body := Body.html
          (Page.catwayDetail { catwayNumber := n, type := t, catwayState := st }) } := by
  obtain ⟨user, hu⟩ := hauth
  obtain ⟨user2, hu2⟩ := hauth2
  have hany : s.catways.any (fun d => decide (d.catwayNumber = n)) = false := by
    rw [List.any_eq_false]
    intro c hc
    simpa using hs c hc
  have hpost : postCatwaysHandler env { req with user := some user } s =
      ({ status := 201,
         body := Body.catway { catwayNumber := n, type := t, catwayState := st } },
       { s with catways := s.catways ++ [{ catwayNumber := n, type := t, catwayState := st }] }) := by
    simp [postCatwaysHandler, hup, saveCatway, catwayOfBody, hn, ht, hst, hany]
  have hnone : findOne (fun c : Catway => decide (c.catwayNumber = n)) s.catways = none := by
    rw [findOne_eq_none_iff]
    intro c hc
    simpa using hs c hc
  have hfind := findOne_append_singleton_of_none
    (fun c : Catway => decide (c.catwayNumber = n)) s.catways
    { catwayNumber := n, type := t, catwayState := st } hnone (by simp)
  unfold postCatways getCatway
  rw [runChain_auth_of_authenticated env _ req s user hu, hpost,
    runChain_auth_of_authenticated env _ req2 _ user2 hu2]
  refine ⟨rfl, rfl, ?_⟩
  simp [getCatwayHandler, hup, hparam, hfind]

/-- The lemma `catway_create_read` at the catway of the scenario of section 8: number 1,
long, Disponible. -/
theorem catway_create_read_witness :
    (postCatways demoEnv { authorization := aliceHeader, body := catwayOneBody }
        emptyStore).response =
      { status := 201,
        body := Body.catway { catwayNumber := 1, type := "long", catwayState := "Disponible" } }
    ∧ (postCatways demoEnv { authorization := aliceHeader, body := catwayOneBody }
        emptyStore).handlerRan = true
    ∧ (getCatway demoEnv { authorization := aliceHeader, param := PathParam.number 1 }
        (postCatways demoEnv { authorization := aliceHeader, body := catwayOneBody }
          emptyStore).store).response =
      { status := 200,
        body := Body.html
          (Page.catwayDetail
            { catwayNumber := 1, type := "long", catwayState := "Disponible" }) } :=
  catway_create_read demoEnv { authorization := aliceHeader, body := catwayOneBody }
    { authorization := aliceHeader, param := PathParam.number 1 } emptyStore 1 "long"
    "Disponible" rfl ⟨{ name := "alice", iat := 0, exp := 5 }, by decide⟩
    ⟨{ name := "alice", iat := 0, exp := 5 }, by decide⟩ rfl rfl rfl
    (by intro c hc; cases hc) rfl

/-- C10: the code at the failing input.  On an empty store, POST /catways with the catway
(1, long, Disponible) and a token that verifies is answered 201 with that catway as JSON,
but GET /catways/1 issued afterwards with the token is answered 200 with an HTML page, a
body sent with `res.send` that is not a JSON catway and has no property catwayNumber, where
the claim and the test say the answer carries the catway; with no Authorization header, as
the tests send them, both requests are answered 401. -/
theorem getCatway_sends_page :
    (postCatways demoEnv { authorization := aliceHeader, body := catwayOneBody }
        emptyStore).response =
      { status := 201,
        body := Body.catway { catwayNumber := 1, type := "long", catwayState := "Disponible" } }
    ∧ (getCatway demoEnv { authorization := aliceHeader, param := PathParam.number 1 }
        (postCatways demoEnv { authorization := aliceHeader, body := catwayOneBody }
          emptyStore).store).response =
      { status := 200,
        body := Body.html
          (Page.catwayDetail
            { catwayNumber := 1, type := "long", catwayState := "Disponible" }) }
    ∧ (getCatway demoEnv { authorization := aliceHeader, param := PathParam.number 1 }
        (postCatways demoEnv { authorization := aliceHeader, body := catwayOneBody }
          emptyStore).store).response.body.isJson = false
    ∧ (postCatways demoEnv { authorization := none, body := catwayOneBody }
        emptyStore).response.status = 401
    ∧ (getCatway demoEnv { authorization := none, param := PathParam.number 1 }
        (postCatways demoEnv { authorization := aliceHeader, body := catwayOneBody }
          emptyStore).store).response.status = 401 := by
  decide

/-! ## Lemmas on `findOneAndDelete` -/

theorem findOneAndDelete_eq_none_iff {α : Type} (filter : α → Bool) (docs : List α) :
    findOneAndDelete filter docs = none ↔ ∀ d ∈ docs, filter d = false := by
  induction docs with
  | nil => simp [findOneAndDelete]
  | cons d ds ih =>
    unfold findOneAndDelete
    by_cases hf : filter d = true
    · simp [hf]
    · have hf2 : filter d = false := by simpa using hf
      cases hrec : findOneAndDelete filter ds with
      | none => simpa [hf2, hrec] using ih.1 hrec
      | some p =>
        have hne : ¬ ∀ d ∈ ds, filter d = false := fun h => by
          rw [ih.2 h] at hrec; cases hrec
        simp only [hf2, Bool.false_eq_true, if_false, reduceCtorEq, false_iff]
        intro h
        exact hne (fun e he => h e (List.mem_cons_of_mem _ he))

/-- What `findOneAndDelete` leaves: the document removed matches the filter, one matching
document fewer is stored, and the documents the filter does not match are as before. -/
theorem findOneAndDelete_some {α : Type} (filter : α → Bool) :
    ∀ (docs : List α) (u : α) (docs1 : List α),
      findOneAndDelete filter docs = some (u, docs1) →
      filter u = true ∧ docs1.countP filter + 1 = docs.countP filter
        ∧ docs1.filter (fun d => !filter d) = docs.filter (fun d => !filter d) := by
  intro docs
  induction docs with
  | nil => intro u docs1 h; simp [findOneAndDelete] at h
  | cons d ds ih =>
    intro u docs1 h
    unfold findOneAndDelete at h
    by_cases hf : filter d = true
    · simp only [hf, if_true, Option.some.injEq, Prod.mk.injEq] at h
      obtain ⟨rfl, rfl⟩ := h
      refine ⟨hf, ?_, ?_⟩
      · rw [List.countP_cons_of_pos _ _ hf]
      · simp [List.filter_cons, hf]
    · simp only [hf, Bool.false_eq_true, if_false] at h
      cases hrec : findOneAndDelete filter ds with
      | none => simp [hrec] at h
      | some p =>
        obtain ⟨u1, ds1⟩ := p
        simp only [hrec, Option.some.injEq, Prod.mk.injEq] at h
        obtain ⟨rfl, rfl⟩ := h
        obtain ⟨h1, h2, h3⟩ := ih u1 ds1 hrec
        refine ⟨h1, ?_, ?_⟩
        · rw [List.countP_cons_of_neg _ _ hf, List.countP_cons_of_neg _ _ hf, h2]
        · simp [List.filter_cons, hf, h3]

/-- When at most one document matches the filter, `findOneAndDelete` leaves exactly the
documents that do not match it. -/
theorem findOneAndDelete_of_unique {α : Type} (filter : α → Bool) :
    ∀ (docs : List α) (u : α) (docs1 : List α),
      findOneAndDelete filter docs = some (u, docs1) →
      docs.Pairwise (fun c d => ¬ (filter c = true ∧ filter d = true)) →
      docs1 = docs.filter (fun d => !filter d) := by
  intro docs u docs1 h hpw
  obtain ⟨-, hcount, hfilter⟩ := findOneAndDelete_some filter docs u docs1 h
  have hle : docs.countP filter ≤ 1 := by
    clear h hcount hfilter
    induction docs with
    | nil => simp
    | cons d ds ih =>
      rw [List.pairwise_cons] at hpw
      by_cases hf : filter d = true
      · have hzero : ds.countP filter = 0 := by
          rw [List.countP_eq_zero]
          intro e he hfe
          exact hpw.1 e he ⟨hf, hfe⟩
        rw [List.countP_cons_of_pos _ _ hf, hzero]
      · rw [List.countP_cons_of_neg _ _ hf]
        exact ih hpw.2
  have hzero : docs1.countP filter = 0 := by omega
  rw [← hfilter]
  symm
  rw [List.filter_eq_self]
  intro e he
  have := (List.countP_eq_zero.1 hzero) e he
  simpa using this

/-! ## C11: a catway deleted -/

/-- C11: on a store with unique catway numbers, the database answering, an authenticated
DELETE /catways/n is answered 200 with message 'Catway supprimé avec succès' when a catway
numbered n is stored, the store afterwards holds exactly the other catways, unchanged, and
an authenticated GET /catways/n issued afterwards is answered 404; when no catway numbered n
is stored, DELETE /catways/n is answered 404 and the store is unchanged. -/
theorem deleteCatway_removes (env : Env) (req : Request) (s : Store) (n : Int)
    (hup : env.dbUp = true) (hauth : Authenticated env req)
    (hparam : req.param = PathParam.number n) (huniq : UniqueCatways s.catways) :
    ((∃ c ∈ s.catways, c.catwayNumber = n) →
      (deleteCatway env req s).response =
        { status := 200, body := Body.message "Catway supprimé avec succès" }
      ∧ (deleteCatway env req s).store =
        { s with catways := s.catways.filter (fun c => decide (c.catwayNumber ≠ n)) }
      ∧ ∀ req2 : Request, Authenticated env req2 → req2.param = PathParam.number n →
        (getCatway env req2 (deleteCatway env req s).store).response =
          { status := 404, body := Body.html (Page.catwayNotFound (PathParam.number n)) })
    ∧ ((∀ c ∈ s.catways, c.catwayNumber ≠ n) →
      (deleteCatway env req s).response =
        { status := 404, body := Body.message "Catway non trouvé" }
      ∧ (deleteCatway env req s).store = s) := by
  obtain ⟨user, hu⟩ := hauth
  unfold deleteCatway
  rw [runChain_auth_of_authenticated env _ req s user hu]
  constructor
  · rintro ⟨c, hc, hcn⟩
    cases hdel : findOneAndDelete (fun c : Catway => decide (c.catwayNumber = n)) s.catways with
    | none =>
      have := (findOneAndDelete_eq_none_iff _ _).1 hdel c hc
      simp [hcn] at this
    | some p =>
      obtain ⟨u, docs⟩ := p
      have hdocs : docs = s.catways.filter (fun c => decide (c.catwayNumber ≠ n)) := by
        have h := findOneAndDelete_of_unique _ s.catways u docs hdel
          (huniq.imp (fun {a b} hab hboth => by
            simp only [decide_eq_true_eq] at hboth
            exact hab (hboth.1.trans hboth.2.symm)))
        rw [h]
        congr 1
        funext c
        simp
      have hhandler : deleteCatwayHandler env { req with user := some user } s =
          ({ status := 200, body := Body.message "Catway supprimé avec succès" },
           { s with catways := docs }) := by
        simp [deleteCatwayHandler, hup, hparam, hdel]
      rw [hhandler, hdocs]
      refine ⟨rfl, rfl, ?_⟩
      intro req2 hauth2 hparam2
      obtain ⟨user2, hu2⟩ := hauth2
      unfold getCatway
      rw [runChain_auth_of_authenticated env _ req2 _ user2 hu2]
      have hnone : findOne (fun c : Catway => decide (c.catwayNumber = n))
          (s.catways.filter (fun c => decide (c.catwayNumber ≠ n))) = none := by
        rw [findOne_eq_none_iff]
        intro d hd
        have := (List.mem_filter.1 hd).2
        simpa using this
      simp only [getCatwayHandler, hup, hparam2, if_true, hnone]
  · intro hnone
    have hdel : findOneAndDelete (fun c : Catway => decide (c.catwayNumber = n)) s.catways
        = none := by
      rw [findOneAndDelete_eq_none_iff]
      intro c hc
      simpa using hnone c hc
    have hhandler : deleteCatwayHandler env { req with user := some user } s =
        ({ status := 404, body := Body.message "Catway non trouvé" }, s) := by
      simp [deleteCatwayHandler, hup, hparam, hdel]
    rw [hhandler]
    exact ⟨rfl, rfl⟩

/-- C11 at the store holding the catways 4 and 7 and the request DELETE /catways/4. -/
theorem deleteCatway_removes_witness :
    (deleteCatway demoEnv { authorization := aliceHeader, param := PathParam.number 4 }
        twoCatways).response =
      { status := 200, body := Body.message "Catway supprimé avec succès" }
    ∧ (deleteCatway demoEnv { authorization := aliceHeader, param := PathParam.number 4 }
        twoCatways).store =
      { twoCatways with
        catways := twoCatways.catways.filter (fun c => decide (c.catwayNumber ≠ 4)) } :=
  have h := (deleteCatway_removes demoEnv
    { authorization := aliceHeader, param := PathParam.number 4 } twoCatways 4 rfl
    ⟨{ name := "alice", iat := 0, exp := 5 }, by decide⟩ rfl (by
      unfold UniqueCatways twoCatways
      simp [emptyStore])).1 ⟨_, List.mem_cons_self _ _, rfl⟩
  ⟨h.1, h.2.1⟩

/-! ## C12: the list of catways -/

/-- C12: the code at the failing inputs.  On the store holding the catways 4 and 7, GET
/catways with a token that verifies is answered 200 with the HTML page listing the catways,
not with a JSON array; with no Authorization header, as the test sends it, it is answered
401 and the handler does not run. -/
theorem getCatways_sends_page :
    getCatways demoEnv { authorization := aliceHeader } twoCatways =
      { response := { status := 200, body := Body.html (Page.catwayList twoCatways.catways) },
        store := twoCatways, handlerRan := true }
    ∧ getCatways demoEnv { authorization := none } twoCatways =
      { response := { status := 401, body := Body.message "Accès refusé : Token manquant." },
        store := twoCatways, handlerRan := false } := by
  decide

/-! ## C13: `PUT /reservations/:catwayNumber` without a reservation of that catway -/

theorem findOneAndUpdate_eq_none_of_forall {α : Type} (filter : α → Bool) (update : α → α)
    (docs : List α) (h : ∀ d ∈ docs, filter d = false) :
    findOneAndUpdate filter update docs = none := by
  induction docs with
  | nil => rfl
  | cons d ds ih =>
    unfold findOneAndUpdate
    have hd := h d (List.mem_cons_self _ _)
    rw [ih (fun e he => h e (List.mem_cons_of_mem _ he))]
    simp [hd]

/-- The conflict query of `PUT /reservations/:catwayNumber` on a body holding the three
operands: its `_id` condition holds of every document, so it is the query of POST. -/
theorem putReservation_conflictQuery (docs : List Reservation) (body : JsonBody)
    (c a b : Int) (hc : body.catwayNumber = some c) (ha : body.checkIn = some a)
    (hb : body.checkOut = some b) :
    conflictQuery docs body (fun r => decide (some r.id ≠ putReservationParamsId)) =
      findOne (conflictFilter c a b) docs := by
  rw [conflictQuery_of_fields docs body _ c a b hc ha hb]
  simp [putReservationParamsId]

/-- C13, as the claim states it, fails: the store holds one reservation, of catway 1 over
[20, 25), and none of catway 2; PUT /reservations/2 with a valid body for catway 1 over
[22, 23) is answered 400 with the conflict message, not 404. -/
theorem putReservation_missing_counterexample :
    reservationSchema.validate (bodyFor 1 22 23) = none
    ∧ (∀ r ∈ johnStore.reservations, r.catwayNumber ≠ 2)
    ∧ (putReservation demoEnv
        { authorization := aliceHeader, param := PathParam.number 2, body := bodyFor 1 22 23 }
        johnStore).response =
      { status := 400,
        body := Body.message
          "Conflit de réservation : un catway est déjà réservé pour cette période." } := by
  decide

/-- C13, amended: for a path parameter n, a valid body and a store holding no reservation
of catway n, the database answering, an authenticated PUT /reservations/n leaves the store
unchanged; it is answered 404 when the conflict query finds no reservation of the body's
catwayNumber matching the body's dates, as is the case when the body's catwayNumber is n,
and 400 with the conflict message when it finds one. -/
theorem putReservation_missing (env : Env) (req : Request) (s : Store) (n c a b : Int)
    (hup : env.dbUp = true) (hauth : Authenticated env req)
    (hval : reservationSchema.validate req.body = none)
    (hparam : req.param = PathParam.number n)
    (hc : req.body.catwayNumber = some c) (ha : req.body.checkIn = some a)
    (hb : req.body.checkOut = some b)
    (hs : ∀ r ∈ s.reservations, r.catwayNumber ≠ n) :
    (putReservation env req s).store = s
    ∧ ((∀ r ∈ s.reservations, conflictFilter c a b r = false) →
        (putReservation env req s).response =
          { status := 404, body := Body.message "Réservation non trouvée" })
    ∧ (c = n →
        (putReservation env req s).response =
          { status := 404, body := Body.message "Réservation non trouvée" })
    ∧ ((∃ r ∈ s.reservations, conflictFilter c a b r = true) →
        (putReservation env req s).response =
          { status := 400,
            body := Body.message
              "Conflit de réservation : un catway est déjà réservé pour cette période." }) := by
  rw [putReservation_of_valid env req s hauth hval]
  have hq := putReservation_conflictQuery s.reservations req.body c a b hc ha hb
  have hupd : findOneAndUpdate (fun r : Reservation => decide (r.catwayNumber = n))
      (updateReservation req.body) s.reservations = none :=
    findOneAndUpdate_eq_none_of_forall _ _ _ (fun r hr => by simpa using hs r hr)
  have hfree : (∀ r ∈ s.reservations, conflictFilter c a b r = false) →
      putReservationHandler env req s =
        ({ status := 404, body := Body.message "Réservation non trouvée" }, s) := by
    intro h
    have hnone := (findOne_eq_none_iff _ _).2 h
    simp only [putReservationHandler, hup, if_true, hq, hnone, hparam, hupd]
  have hbusy : (∃ r ∈ s.reservations, conflictFilter c a b r = true) →
      putReservationHandler env req s =
        ({ status := 400,
           body := Body.message
             "Conflit de réservation : un catway est déjà réservé pour cette période." }, s) := by
    intro h
    have hsome := (findOne_isSome_iff _ _).2 h
    cases hfind : findOne (conflictFilter c a b) s.reservations with
    | none => rw [hfind] at hsome; cases hsome
    | some r => simp only [putReservationHandler, hup, if_true, hq, hfind]
  refine ⟨?_, ?_, ?_, ?_⟩
  · by_cases h : ∃ r ∈ s.reservations, conflictFilter c a b r = true
    · rw [hbusy h]
    · rw [hfree (fun r hr => by
        cases hf : conflictFilter c a b r
        · rfl
        · exact absurd ⟨r, hr, hf⟩ h)]
  · intro h
    rw [hfree h]
  · intro hcn
    subst hcn
    rw [hfree (fun r hr => by simp [conflictFilter, hs r hr])]
  · intro h
    rw [hbusy h]

/-- C13 at the store holding one reservation, of catway 1, and the request PUT
/reservations/2 with a body for catway 2. -/
theorem putReservation_missing_witness :
    (putReservation demoEnv
        { authorization := aliceHeader, param := PathParam.number 2, body := bodyFor 2 22 23 }
        johnStore).store = johnStore
    ∧ (putReservation demoEnv
        { authorization := aliceHeader, param := PathParam.number 2, body := bodyFor 2 22 23 }
        johnStore).response =
      { status := 404, body := Body.message "Réservation non trouvée" } :=
  have h := putReservation_missing demoEnv
    { authorization := aliceHeader, param := PathParam.number 2, body := bodyFor 2 22 23 }
    johnStore 2 2 22 23 rfl ⟨{ name := "alice", iat := 0, exp := 5 }, by decide⟩ (by decide)
    rfl rfl rfl rfl (by decide)
  ⟨h.1, h.2.2.1 rfl⟩

/-! ## C14: the database not answering -/

/-- C14, as the claim states it, fails: with the database not answering, the handlers of
POST /catways, PUT /catways/:catwayNumber, POST /reservations and PUT
/reservations/:catwayNumber answer 400, not 500. -/
theorem handlers_db_down_counterexample :
    downEnv.dbUp = false
    ∧ (postCatwaysHandler downEnv { body := catwayOneBody } emptyStore).1.status = 400
    ∧ (putCatwayHandler downEnv { param := PathParam.number 4, body := catwayOneBody }
        twoCatways).1.status = 400
    ∧ (postReservationsHandler downEnv { body := bodyFor 1 30 35 } johnStore).1.status = 400
    ∧ (putReservationHandler downEnv { param := PathParam.number 1, body := bodyFor 1 30 35 }
        johnStore).1.status = 400 := by
  decide

/-- C14, amended: when the store operation a handler of the catway and reservation routes
awaits raises an exception such as a connectivity error, the request is answered once, with
status 500 by the list, detail and delete handlers and with status 400 by the create and
update handlers, and the store is unchanged. -/
theorem handlers_db_down (env : Env) (req : Request) (s : Store) (hdown : env.dbUp = false) :
    ((getCatwaysHandler env req s).1.status = 500
      ∧ (getCatwayHandler env req s).1.status = 500
      ∧ (deleteCatwayHandler env req s).1.status = 500
      ∧ (getReservationsHandler env req s).1.status = 500
      ∧ (getReservationHandler env req s).1.status = 500
      ∧ (deleteReservationHandler env req s).1.status = 500)
    ∧ ((postCatwaysHandler env req s).1.status = 400
      ∧ (putCatwayHandler env req s).1.status = 400
      ∧ (postReservationsHandler env req s).1.status = 400
      ∧ (putReservationHandler env req s).1.status = 400)
    ∧ ((getCatwaysHandler env req s).2 = s ∧ (getCatwayHandler env req s).2 = s
      ∧ (deleteCatwayHandler env req s).2 = s ∧ (getReservationsHandler env req s).2 = s
      ∧ (getReservationHandler env req s).2 = s ∧ (deleteReservationHandler env req s).2 = s
      ∧ (postCatwaysHandler env req s).2 = s ∧ (putCatwayHandler env req s).2 = s
      ∧ (postReservationsHandler env req s).2 = s
      ∧ (putReservationHandler env req s).2 = s) := by
  simp [getCatwaysHandler, getCatwayHandler, deleteCatwayHandler, getReservationsHandler,
    getReservationHandler, deleteReservationHandler, postCatwaysHandler, putCatwayHandler,
    postReservationsHandler, putReservationHandler, hdown]

/-- C14 at the handler of DELETE /reservations/:catwayNumber, the database not
answering. -/
theorem handlers_db_down_witness :
    (deleteReservationHandler downEnv { param := PathParam.number 1 } johnStore).1.status = 500
    ∧ (deleteReservationHandler downEnv { param := PathParam.number 1 } johnStore).2
        = johnStore :=
  have h := handlers_db_down downEnv { param := PathParam.number 1 } johnStore rfl
  ⟨h.1.2.2.2.2.2, h.2.2.2.2.2.2.2.1⟩

/-! ## C15: the exclusion filter of `PUT /reservations/:catwayNumber` -/

/-- C15: the `_id` condition of the conflict query of PUT /reservations/:catwayNumber is
built from `req.params.id`, which the route does not define, and holds of every stored
reservation; so for a store holding a reservation r, the database answering, an
authenticated PUT /reservations/n whose valid body repeats the catwayNumber, checkIn and
checkOut of r is answered 400 with the conflict message and the store is unchanged, whatever
n; in particular when n is the catwayNumber of r. -/
theorem putReservation_same_dates (env : Env) (req : Request) (s : Store)
    (r : Reservation) (hup : env.dbUp = true) (hauth : Authenticated env req)
    (hval : reservationSchema.validate req.body = none) (hr : r ∈ s.reservations)
    (hc : req.body.catwayNumber = some r.catwayNumber)
    (ha : req.body.checkIn = some r.checkIn) (hb : req.body.checkOut = some r.checkOut) :
    (∀ d : Reservation, decide (some d.id ≠ putReservationParamsId) = true)
    ∧ putReservation env req s =
      { response :=
          { status := 400,
            body := Body.message
              "Conflit de réservation : un catway est déjà réservé pour cette période." },
        store := s, handlerRan := true } := by
  constructor
  · intro d
    simp [putReservationParamsId]
  · rw [putReservation_of_valid env req s hauth hval]
    have hq := putReservation_conflictQuery s.reservations req.body r.catwayNumber r.checkIn
      r.checkOut hc ha hb
    have hmatch : conflictFilter r.catwayNumber r.checkIn r.checkOut r = true := by
      rw [conflictFilter_iff, overlapOr_iff]
      exact ⟨rfl, Or.inr (Or.inr ⟨le_refl _, le_refl _⟩)⟩
    have hsome := (findOne_isSome_iff _ _).2 ⟨r, hr, hmatch⟩
    cases hfind : findOne (conflictFilter r.catwayNumber r.checkIn r.checkOut)
        s.reservations with
    | none => rw [hfind] at hsome; cases hsome
    | some d => simp only [putReservationHandler, hup, if_true, hq, hfind]

/-- C15 at the store holding the reservation of catway 1 over [20, 25) and the request PUT
/reservations/1 that repeats its catway and dates. -/
theorem putReservation_same_dates_witness :
    putReservation demoEnv
        { authorization := aliceHeader, param := PathParam.number 1, body := bodyFor 1 20 25 }
        johnStore =
      { response :=
          { status := 400,
            body := Body.message
              "Conflit de réservation : un catway est déjà réservé pour cette période." },
        store := johnStore, handlerRan := true } :=
  (putReservation_same_dates demoEnv
    { authorization := aliceHeader, param := PathParam.number 1, body := bodyFor 1 20 25 }
    johnStore johnDoe rfl ⟨{ name := "alice", iat := 0, exp := 5 }, by decide⟩ (by decide)
    (List.mem_cons_self _ _) rfl rfl rfl).2

/-! ## C16: the conflict predicate is symmetric -/

/-- C16: for two intervals with ordered ends, equal ends allowed, the three-branch
predicate holds with the first as stored reservation and the second as candidate if and only
if it holds with the second as stored reservation and the first as candidate. -/
theorem overlapOr_symm (r1 r2 : Reservation) (h1 : r1.checkIn ≤ r1.checkOut)
    (h2 : r2.checkIn ≤ r2.checkOut) :
    overlapOr r1 r2.checkIn r2.checkOut = overlapOr r2 r1.checkIn r1.checkOut := by
  rw [Bool.eq_iff_iff, overlapOr_iff, overlapOr_iff]
  omega

/-- C16 at the reservations over [20, 25) and [30, 35). -/
theorem overlapOr_symm_witness :
    overlapOr johnDoe janeRoe.checkIn janeRoe.checkOut
      = overlapOr janeRoe johnDoe.checkIn johnDoe.checkOut :=
  overlapOr_symm johnDoe janeRoe (by decide) (by decide)

/-! ## C17: the scheme word of the Authorization header -/

theorem splitOn_append_sep (sep : Char) (t : List Char) :
    ∀ w : List Char, sep ∉ w → splitOn sep (w ++ sep :: t) = w :: splitOn sep t := by
  intro w
  induction w with
  | nil => intro _; simp [splitOn]
  | cons c cs ih =>
    intro h
    have hc : c ≠ sep := fun hc => h (hc ▸ List.mem_cons_self _ _)
    have hcs : sep ∉ cs := fun hm => h (List.mem_cons_of_mem _ hm)
    simp [splitOn, hc, ih hcs]

/-- The token `authenticateToken` verifies is read off the second segment of the header
value alone. -/
theorem bearerToken_eq_secondSegment (h : String) :
    bearerToken (some h) =
      match secondSegment h with
      | none => none
      | some seg => if seg = [] then none else some (String.mk seg) := by
  by_cases hempty : h = ""
  · subst hempty
    simp [bearerToken, secondSegment, splitOn]
  · simp [bearerToken, secondSegment, hempty]

theorem authenticateToken_of_bearerToken (env : Env) (req : Request) :
    authenticateToken env req =
      match bearerToken req.authorization with
      | none =>
        MwResult.respond
          { status := 401, body := Body.message "Accès refusé : Token manquant." }
      | some token =>
        match env.jwt.verify token env.secret env.now with
        | none => MwResult.respond { status := 403, body := Body.message "Token invalide." }
        | some user => MwResult.next { req with user := some user } := by
  rfl

/-- C17: two header values with the same second space-separated segment get the same
outcome from `authenticateToken` (the same 401 or 403 response, or next with the same
`req.user`), as do `w1 t` and `w2 t` for any words w1 and w2 without a space; and a header
value without a space, or whose second segment is empty, is answered 401 whatever
`jwt.verify` would say. -/
theorem authenticateToken_ignores_scheme (env : Env) :
    (∀ (req1 req2 : Request) (h1 h2 : String),
      req1.authorization = some h1 → req2.authorization = some h2 →
      secondSegment h1 = secondSegment h2 →
      (∀ res, authenticateToken env req1 = MwResult.respond res ↔
          authenticateToken env req2 = MwResult.respond res)
      ∧ (∀ user, authenticateToken env req1 = MwResult.next { req1 with user := some user } ↔
          authenticateToken env req2 = MwResult.next { req2 with user := some user }))
    ∧ (∀ w1 w2 t : String, ' ' ∉ w1.data → ' ' ∉ w2.data →
        secondSegment (w1 ++ " " ++ t) = secondSegment (w2 ++ " " ++ t))
    ∧ (∀ (req : Request) (h : String), req.authorization = some h →
        ' ' ∉ h.data ∨ secondSegment h = some [] →
        authenticateToken env req =
          MwResult.respond
            { status := 401, body := Body.message "Accès refusé : Token manquant." }) := by
  refine ⟨?_, ?_, ?_⟩
  · intro req1 req2 h1 h2 hh1 hh2 hseg
    have ht : bearerToken req1.authorization = bearerToken req2.authorization := by
      rw [hh1, hh2, bearerToken_eq_secondSegment, bearerToken_eq_secondSegment, hseg]
    rw [authenticateToken_of_bearerToken env req1, authenticateToken_of_bearerToken env req2,
      ht]
    cases bearerToken req2.authorization with
    | none => exact ⟨fun _ => Iff.rfl, fun user => by simp⟩
    | some token =>
      dsimp only
      cases env.jwt.verify token env.secret env.now with
      | none => exact ⟨fun _ => Iff.rfl, fun user => by simp⟩
      | some u => exact ⟨fun res => by simp, fun user => by simp⟩
  · intro w1 w2 t hw1 hw2
    have hdata : ∀ w : String, (w ++ " " ++ t).data = w.data ++ ' ' :: t.data := by
      intro w
      simp [String.data_append]
    unfold secondSegment
    rw [hdata w1, hdata w2, splitOn_append_sep ' ' t.data w1.data hw1,
      splitOn_append_sep ' ' t.data w2.data hw2]
    simp
  · intro req h hh hcase
    have hnone : bearerToken req.authorization = none := by
      rw [hh, bearerToken_eq_secondSegment]
      rcases hcase with hsp | hseg
      · simp [secondSegment, splitOn_of_not_mem ' ' h.data hsp]
      · simp [hseg]
    rw [authenticateToken_of_bearerToken env req, hnone]

/-- C17 at the header values `Bearer ttttt.alice` and `Basic ttttt.alice`. -/
theorem authenticateToken_ignores_scheme_witness :
    ∀ res,
      authenticateToken demoEnv { authorization := some "Bearer ttttt.alice" } =
          MwResult.respond res ↔
        authenticateToken demoEnv { authorization := some "Basic ttttt.alice" } =
          MwResult.respond res :=
  ((authenticateToken_ignores_scheme demoEnv).1
    { authorization := some "Bearer ttttt.alice" } { authorization := some "Basic ttttt.alice" }
    "Bearer ttttt.alice" "Basic ttttt.alice" rfl rfl (by decide)).1

/-! ## C18: `DELETE /reservations/:catwayNumber` removes one reservation -/

/-- C18: for a store holding k ≥ 1 reservations of catway n, the database answering, an
authenticated DELETE /reservations/n is answered 200, leaves k - 1 reservations of catway n
and leaves the reservations of the other catways, and the other collections, as they were;
when k ≥ 2, an authenticated GET /reservations/n issued afterwards is answered 200. -/
theorem deleteReservation_removes_one (env : Env) (req : Request) (s : Store) (n : Int)
    (hup : env.dbUp = true) (hauth : Authenticated env req)
    (hparam : req.param = PathParam.number n)
    (hk : 1 ≤ s.reservations.countP (fun r => decide (r.catwayNumber = n))) :
    (deleteReservation env req s).response =
      { status := 200, body := Body.message "Réservation supprimée avec succès" }
    ∧ (deleteReservation env req s).store.reservations.countP
          (fun r => decide (r.catwayNumber = n))
        = s.reservations.countP (fun r => decide (r.catwayNumber = n)) - 1
    ∧ (deleteReservation env req s).store.reservations.filter
          (fun r => decide (r.catwayNumber ≠ n))
        = s.reservations.filter (fun r => decide (r.catwayNumber ≠ n))
    ∧ (deleteReservation env req s).store.catways = s.catways
    ∧ (deleteReservation env req s).store.users = s.users
    ∧ (2 ≤ s.reservations.countP (fun r => decide (r.catwayNumber = n)) →
        ∀ req2 : Request, Authenticated env req2 → req2.param = PathParam.number n →
          (getReservation env req2 (deleteReservation env req s).store).response.status
            = 200) := by
  obtain ⟨user, hu⟩ := hauth
  unfold deleteReservation
  rw [runChain_auth_of_authenticated env _ req s user hu]
  cases hdel : findOneAndDelete (fun r : Reservation => decide (r.catwayNumber = n))
      s.reservations with
  | none =>
    exfalso
    have hall := (findOneAndDelete_eq_none_iff _ _).1 hdel
    have hzero : s.reservations.countP (fun r => decide (r.catwayNumber = n)) = 0 := by
      rw [List.countP_eq_zero]
      intro r hr
      simpa using hall r hr
    omega
  | some p =>
    obtain ⟨u, docs⟩ := p
    obtain ⟨-, hcount, hfilter⟩ := findOneAndDelete_some _ s.reservations u docs hdel
    have hne : (fun r : Reservation => decide (r.catwayNumber ≠ n)) =
        (fun r : Reservation => !decide (r.catwayNumber = n)) := by
      funext r
      simp
    have hhandler : deleteReservationHandler env { req with user := some user } s =
        ({ status := 200, body := Body.message "Réservation supprimée avec succès" },
         { s with reservations := docs }) := by
      simp only [deleteReservationHandler, hup, if_true, hparam, hdel]
    rw [hhandler]
    refine ⟨rfl, ?_, ?_, rfl, rfl, ?_⟩
    · show docs.countP (fun r => decide (r.catwayNumber = n)) = _
      omega
    · show docs.filter (fun r => decide (r.catwayNumber ≠ n)) = _
      rw [hne]
      exact hfilter
    · intro h2 req2 hauth2 hparam2
      obtain ⟨user2, hu2⟩ := hauth2
      unfold getReservation
      rw [runChain_auth_of_authenticated env _ req2 _ user2 hu2]
      have hpos : 0 < docs.countP (fun r => decide (r.catwayNumber = n)) := by omega
      obtain ⟨r, hr, hrn⟩ := List.countP_pos_iff.1 hpos
      have hsome := (findOne_isSome_iff (fun r : Reservation => decide (r.catwayNumber = n))
        docs).2 ⟨r, hr, hrn⟩
      cases hfind : findOne (fun r : Reservation => decide (r.catwayNumber = n)) docs with
      | none => rw [hfind] at hsome; cases hsome
      | some d => simp only [getReservationHandler, hup, if_true, hparam2, hfind]

/-- C18 at the store holding two reservations of catway 1 and the request DELETE
/reservations/1. -/
theorem deleteReservation_removes_one_witness :
    (deleteReservation demoEnv { authorization := aliceHeader, param := PathParam.number 1 }
        twoReservations).response =
      { status := 200, body := Body.message "Réservation supprimée avec succès" }
    ∧ (deleteReservation demoEnv { authorization := aliceHeader, param := PathParam.number 1 }
        twoReservations).store.reservations.countP (fun r => decide (r.catwayNumber = 1))
      = twoReservations.reservations.countP (fun r => decide (r.catwayNumber = 1)) - 1 :=
  have h := deleteReservation_removes_one demoEnv
    { authorization := aliceHeader, param := PathParam.number 1 } twoReservations 1 rfl
    ⟨{ name := "alice", iat := 0, exp := 5 }, by decide⟩ rfl (by decide)
  ⟨h.1, h.2.1⟩

end PortDePlaisance
